import Mathlib

/-!
Shallow embedding of the failure-analysis pipeline of the
`automation_failure_solver` repository (the `poc/langgraph_poc` package:
`clients/xml_reader.py`, `clients/test_finder.py`, `clients/java_executor.py`,
`clients/local_repo.py` and the six workflow nodes wired by `graph.py`).

Python `float` values are modelled as exact rationals (ℚ) with IEEE
binary64 round-to-nearest-even applied after every arithmetic step (so
float accumulation is order-dependent, as in the program); Python `int`
as ℤ;
truthiness of strings/lists is emptiness; `None`-able dictionary entries are
`Option` fields.  External effects (file system, subprocess, LLM call) are
oracles passed in explicitly.
-/

set_option allowUnsafeReducibility true

attribute [local semireducible] Rat.add Rat.mul Rat.inv Rat.sub Rat.ofScientific

/-! ### Python string helpers -/

/-- Characters Python `str.strip()` removes. -/
def pyWs : List Char := [' ', '\t', '\n', '\r', '\x0b', '\x0c']

def dropTrailWhile (p : Char → Bool) (cs : List Char) : List Char :=
  ((cs.reverse).dropWhile p).reverse

/-- Python `s.strip()` on a char list. -/
def pyStripChars (cs : List Char) : List Char :=
  dropTrailWhile (fun c => pyWs.contains c) (cs.dropWhile (fun c => pyWs.contains c))

/-- Python `s.strip()`. -/
def pyStrip (s : String) : String := ⟨pyStripChars s.data⟩

/-- Python `s.lstrip(set)`: drop leading characters belonging to `set`. -/
def pyLstripSet (set : List Char) (s : String) : String :=
  ⟨s.data.dropWhile (fun c => set.contains c)⟩

/-- Substring test on char lists, the semantics of Python `sub in s`. -/
def containsChars (cs sub : List Char) : Bool :=
  match cs with
  | [] => sub.isEmpty
  | _ :: rest => sub.isPrefixOf cs || containsChars rest sub

/-- Python `sub in s` for strings. -/
def strIn (s sub : String) : Bool := containsChars s.data sub.data

/-- Python `s.lower()` (char-wise, as the source only lowercases ASCII
markers). -/
def pyLower (s : String) : String := ⟨s.data.map Char.toLower⟩

/-- Python `s.upper()`. -/
def pyUpper (s : String) : String := ⟨s.data.map Char.toUpper⟩

/-! ### IEEE binary64 model

Python floats are doubles.  A finite double is an exact rational; each
arithmetic operation computes the exact rational result and rounds it to
53 bits of significand, ties to even.  The model covers the normal range
(the fuel bounds the exponent search well beyond binary64's range);
infinities, NaNs and overflow are outside the ℚ model. -/

/-- Round to the nearest integer, ties to even (also the rounding of
Python's `format`). -/
def roundHalfEven (q : ℚ) : Int :=
  let f : Int := q.num.fdiv (q.den : Int)
  let r := q - (f : ℚ)
  if r < 1/2 then f
  else if 1/2 < r then f + 1
  else if f % 2 = 0 then f else f + 1

def pow2 (e : Int) : ℚ :=
  if 0 ≤ e then ((2 ^ e.toNat : ℕ) : ℚ) else 1 / ((2 ^ (-e).toNat : ℕ) : ℚ)

/-- Scale a positive rational into `[2^52, 2^53)`, returning the scaled
value and the exponent taken out. -/
def fpNormalize : Nat → ℚ → Int → ℚ × Int
  | 0, a, e => (a, e)
  | fuel + 1, a, e =>
    if a < ((4503599627370496 : ℕ) : ℚ) then fpNormalize fuel (a * 2) (e - 1)
    else if ((9007199254740992 : ℕ) : ℚ) ≤ a then fpNormalize fuel (a / 2) (e + 1)
    else (a, e)

/-- Round an exact rational to the nearest IEEE binary64 value
(ties to even), as an exact rational. -/
def fpRound (q : ℚ) : ℚ :=
  if q = 0 then 0
  else
    let a := if q < 0 then -q else q
    let (m0, e) := fpNormalize 4400 a 0
    let m := roundHalfEven m0
    (if q < 0 then -1 else 1) * (m : ℚ) * pow2 e

/-- IEEE double addition: exact sum, then one rounding. -/
def fpAdd (a b : ℚ) : ℚ := fpRound (a + b)

/-- IEEE double division: exact quotient, then one rounding. -/
def fpDiv (a b : ℚ) : ℚ := fpRound (a / b)

/-- Python `s.split(sep)` for a nonempty separator, on char lists.  The
fuel argument (instantiated with the list length, an upper bound on the
number of steps) keeps the recursion structural. -/
def pySplitChars (sep : List Char) : Nat → List Char → List (List Char)
  | _, [] => [[]]
  | 0, cs => [cs]
  | fuel + 1, c :: rest =>
    if sep.isPrefixOf (c :: rest) then
      [] :: pySplitChars sep fuel ((c :: rest).drop sep.length)
    else
      match pySplitChars sep fuel rest with
      | [] => [[c]]
      | g :: gs => (c :: g) :: gs

/-- Python `s.split(sep)`.  An empty separator (which Python rejects) returns
the whole string unsplit. -/
def pySplit (s sep : String) : List String :=
  match sep.data with
  | [] => [s]
  | s0 :: stail =>
    (pySplitChars (s0 :: stail) s.data.length s.data).map (fun cs => ⟨cs⟩)

/-- Splitting on a single character (Python `s.split('.')` and friends),
structurally. -/
def splitChar (sep : Char) : List Char → List (List Char)
  | [] => [[]]
  | c :: rest =>
    if c = sep then [] :: splitChar sep rest
    else
      match splitChar sep rest with
      | [] => [[c]]
      | g :: gs => (c :: g) :: gs

/-- Python `s.split(sep)` for a one-character separator. -/
def splitCharStr (s : String) (sep : Char) : List String :=
  (splitChar sep s.data).map (fun cs => ⟨cs⟩)

/-- A Python digit group: decimal digits with single underscores allowed
strictly between digits (`1_0` is valid, `_1`, `1_`, `1__0` are not).
Returns the digits with the underscores removed. -/
def pyDigits (cs : List Char) : Option (List Char) :=
  if cs ≠ [] && cs.head? ≠ some '_' && cs.getLast? ≠ some '_' &&
      cs.all (fun c => c.isDigit || c = '_') &&
      !(containsChars cs ['_', '_']) then
    some (cs.filter (fun c => c ≠ '_'))
  else none

/-- A possibly-empty digit group (for `1.`-style literals). -/
def pyDigitsOpt (cs : List Char) : Option (List Char) :=
  if cs.isEmpty then some [] else pyDigits cs

/-- Python `int(s)`: optional surrounding whitespace, optional sign, a
nonempty digit group (underscore grouping included). -/
def pyInt (s : String) : Option Int :=
  let cs := pyStripChars s.data
  let (sign, ds) : Int × List Char :=
    match cs with
    | '-' :: rest => (-1, rest)
    | '+' :: rest => (1, rest)
    | rest => (1, rest)
  match pyDigits ds with
  | some digits =>
    some (sign * (digits.foldl (fun a c => a * 10 + (c.toNat - '0'.toNat)) 0 : Nat))
  | none => none

def digitsVal (ds : List Char) : Nat :=
  ds.foldl (fun a c => a * 10 + (c.toNat - '0'.toNat)) 0

/-- Python `float(s)` on finite decimal literals with an optional exponent
and underscore grouping: the exact decimal value is rounded to the nearest
binary64 double (`inf`/`nan` are outside the ℚ model). -/
def pyFloat (s : String) : Option ℚ :=
  let cs := pyStripChars s.data
  let (sign, cs) : ℚ × List Char :=
    match cs with
    | '-' :: rest => (-1, rest)
    | '+' :: rest => (1, rest)
    | rest => (1, rest)
  let (mant, ex) : List Char × Option (List Char) :=
    match cs.splitOn 'e', cs.splitOn 'E' with
    | [m, e], _ => (m, some e)
    | _, [m, e] => (m, some e)
    | _, _ => (cs, none)
  let mantVal : Option ℚ :=
    match mant.splitOn '.' with
    | [ip] =>
      match pyDigits ip with
      | some digits => some (digitsVal digits)
      | none => none
    | [ip, fp] =>
      match pyDigitsOpt ip, pyDigitsOpt fp with
      | some ipd, some fpd =>
        if ipd ++ fpd ≠ [] then
          some ((digitsVal ipd : ℚ) + (digitsVal fpd : ℚ) / (10 ^ fpd.length : ℕ))
        else none
      | _, _ => none
    | _ => none
  let expVal : Option Int :=
    match ex with
    | none => some 0
    | some e =>
      let (es, eds) : Int × List Char :=
        match e with
        | '-' :: rest => (-1, rest)
        | '+' :: rest => (1, rest)
        | rest => (1, rest)
      match pyDigits eds with
      | some digits => some (es * digitsVal digits)
      | none => none
  match mantVal, expVal with
  | some m, some e =>
    some (fpRound (sign * m *
      (if 0 ≤ e then ((10 ^ e.toNat : ℕ) : ℚ) else 1 / ((10 ^ (-e).toNat : ℕ) : ℚ))))
  | _, _ => none

/-! ### XML document model (`xml.etree.ElementTree` subset) -/

/-- An XML element: tag, attributes in document order, children, and the text
directly inside the element (before the first child). -/
inductive Xml where
  | elem (tag : String) (attrs : List (String × String)) (children : List Xml)
      (text : Option String)

def Xml.tag : Xml → String
  | .elem t _ _ _ => t

def Xml.attrs : Xml → List (String × String)
  | .elem _ a _ _ => a

def Xml.children : Xml → List Xml
  | .elem _ _ c _ => c

def Xml.text : Xml → Option String
  | .elem _ _ _ t => t

/-- `elem.get(name)`. -/
def Xml.attr (x : Xml) (name : String) : Option String :=
  (x.attrs.find? (fun p => p.1 = name)).map (·.2)

/-- `elem.get(name, d)`. -/
def Xml.attrD (x : Xml) (name d : String) : String := (x.attr name).getD d

mutual
/-- All proper descendants of an element in document order: the semantics of
`elem.findall('.//*')`. -/
def Xml.descendants : Xml → List Xml
  | .elem _ _ cs _ => descendantsList cs

def descendantsList : List Xml → List Xml
  | [] => []
  | x :: xs => x :: Xml.descendants x ++ descendantsList xs
end

/-- `elem.findall('.//tag')`. -/
def Xml.findAllDesc (x : Xml) (t : String) : List Xml :=
  x.descendants.filter (fun c => c.tag = t)

/-- `elem.find('.//tag')`. -/
def Xml.findDesc (x : Xml) (t : String) : Option Xml :=
  (x.findAllDesc t).head?

/-- `elem.find('tag')` (direct children only). -/
def Xml.findChild (x : Xml) (t : String) : Option Xml :=
  x.children.find? (fun c => c.tag = t)

/-! ### `clients/xml_reader.py` — XMLReportReader -/

/-- The dictionary returned by `XMLReportReader.parse_report`.
`fmt` is the `'format'` key; it is `none` for the merged multi-file
dictionary, which has no such key. -/
structure Summary where
  total_tests : Int
  passed_tests : Int
  failed_tests : Int
  error_tests : Int
  skipped_tests : Int
  duration_seconds : ℚ
  fmt : Option String
deriving DecidableEq

/-- One entry of `test_failures`.  JUnit records carry no
`method_signature`/`duration_ms`/`params` keys; every later read uses
`.get(..., '')`-style defaults, so the missing keys are modelled as `""`/`[]`. -/
structure FailureInfo where
  test_name : String
  class_name : String
  method_signature : String
  error_type : String
  error_message : String
  stack_trace : String
  duration_ms : String
  params : List String
deriving DecidableEq

/-- The dictionary returned by `XMLReportReader.extract_failure_details`
(also the failure-related part of the merged dictionary). -/
structure FailureDetails where
  failure_count : Nat
  result : String
  test_failures : List FailureInfo
  error_lines : List String
  has_compilation_error : Bool
  has_timeout : Bool
  has_assertion_error : Bool
  fmt : Option String
deriving DecidableEq

/-- `int(elem.get(name, 0))`: a missing attribute yields `0`, a present but
non-numeric one raises `ValueError`. -/
def attrInt (x : Xml) (name : String) : Except String Int :=
  match x.attr name with
  | none => .ok 0
  | some s =>
    match pyInt s with
    | some v => .ok v
    | none => .error ("invalid literal for int() with base 10: " ++ s)

/-- `float(elem.get(name, 0))`. -/
def attrFloat (x : Xml) (name : String) : Except String ℚ :=
  match x.attr name with
  | none => .ok 0
  | some s =>
    match pyFloat s with
    | some v => .ok v
    | none => .error ("could not convert string to float: " ++ s)

/-- `XMLReportReader._detect_format` (raises `ValueError` on unknown roots). -/
def detect_format (x : Xml) : Except String String :=
  if x.tag = "testng-results" then .ok "testng"
  else if x.tag = "testsuites" || x.tag = "testsuite" then .ok "junit"
  else if (x.findDesc "test-method").isSome then .ok "testng"
  else if (x.findDesc "testcase").isSome then .ok "junit"
  else .error ("Unknown XML format.  Root tag: " ++ x.tag)

/-- `XMLReportReader._parse_testng` (the `ValueError` of each `int(...)`
propagates in source order). -/
def parse_testng (x : Xml) : Except String Summary :=
  match attrInt x "total" with
  | .error e => .error e
  | .ok total =>
  match attrInt x "passed" with
  | .error e => .error e
  | .ok passed =>
  match attrInt x "failed" with
  | .error e => .error e
  | .ok failed =>
  match attrInt x "skipped" with
  | .error e => .error e
  | .ok skipped =>
  match attrInt x "ignored" with
  | .error e => .error e
  | .ok ignored =>
    let duration := (x.findAllDesc "suite").foldl
      (fun d suite =>
        match pyFloat (suite.attrD "duration-ms" "0") with
        | some v => fpAdd d (fpDiv v 1000)
        | none => d)  -- `except (ValueError, TypeError): pass`
      (0 : ℚ)
    .ok { total_tests := total, passed_tests := passed, failed_tests := failed,
          error_tests := 0, skipped_tests := skipped + ignored,
          duration_seconds := duration, fmt := some "testng" }

/-- One iteration of `_parse_junit`'s suite loop: accumulate
`(total, passed, failed, errored, skipped, duration)`, raising the
`int`/`float` `ValueError`s in source order. -/
def junitSuiteStep (acc : Int × Int × Int × Int × Int × ℚ) (suite : Xml) :
    Except String (Int × Int × Int × Int × Int × ℚ) :=
  match attrInt suite "tests" with
  | .error e => .error e
  | .ok tests =>
  match attrInt suite "failures" with
  | .error e => .error e
  | .ok failures =>
  match attrInt suite "errors" with
  | .error e => .error e
  | .ok errors =>
  match attrInt suite "skipped" with
  | .error e => .error e
  | .ok skipped =>
  match attrFloat suite "time" with
  | .error e => .error e
  | .ok time =>
    .ok (acc.1 + tests, acc.2.1 + (tests - failures - errors - skipped),
         acc.2.2.1 + failures, acc.2.2.2.1 + errors, acc.2.2.2.2.1 + skipped,
         fpAdd acc.2.2.2.2.2 time)

/-- The suite loop itself. -/
def junitSuitesFold (acc : Int × Int × Int × Int × Int × ℚ) :
    List Xml → Except String (Int × Int × Int × Int × Int × ℚ)
  | [] => .ok acc
  | suite :: rest =>
    match junitSuiteStep acc suite with
    | .error e => .error e
    | .ok acc2 => junitSuitesFold acc2 rest

/-- The suite list `_parse_junit` iterates over (lines 104-106 of
`xml_reader.py`). -/
def junitSuites (x : Xml) : List Xml :=
  if (x.findAllDesc "testsuite").isEmpty && x.tag = "testsuite" then [x]
  else x.findAllDesc "testsuite"

/-- `XMLReportReader._parse_junit`. -/
def parse_junit (x : Xml) : Except String Summary :=
  match junitSuitesFold (0, 0, 0, 0, 0, 0) (junitSuites x) with
  | .error e => .error e
  | .ok (total, passed, failed, errored, skipped, duration) =>
    .ok { total_tests := total, passed_tests := passed, failed_tests := failed,
          error_tests := errored, skipped_tests := skipped,
          duration_seconds := duration, fmt := some "junit" }

/-- `XMLReportReader.parse_report`. -/
def parse_report (x : Xml) (fmt : String) : Except String Summary :=
  if fmt = "testng" then parse_testng x else parse_junit x

/-- The `re.search(r'instance:([^@]+)@', signature)` class-name extraction:
leftmost position where `instance:` is followed by at least one non-`@`
character and then `@`. -/
def instanceClass (cs : List Char) : Option (List Char) :=
  match cs with
  | [] => none
  | _ :: rest =>
    if ("instance:".data).isPrefixOf cs then
      let after := cs.drop ("instance:".length)
      let run := after.takeWhile (fun c => c ≠ '@')
      if run ≠ [] && (after.drop run.length).head? = some '@' then some run
      else instanceClass rest
    else instanceClass rest

/-- Class-name extraction from a TestNG `signature` attribute
(lines 163-167 of `xml_reader.py`). -/
def testngClassName (signature : String) : String :=
  if strIn signature "instance:" then
    match instanceClass signature.data with
    | some run => ⟨run⟩
    | none => ""
  else ""

/-- Exception fields of one failed TestNG `test-method`
(lines 169-190 of `xml_reader.py`). -/
def testngException (tm : Xml) : String × String × String :=
  match tm.findDesc "exception" with
  | none => ("", "", "")
  | some exc =>
    let error_type := exc.attrD "class" "Exception"
    let error_message :=
      match exc.findChild "message" with
      | some m => match m.text with
                  | some t => if t ≠ "" then pyStrip t else ""
                  | none => ""
      | none => ""
    let stack_trace :=
      match exc.findChild "full-stacktrace" with
      | some f =>
        match f.text with
        | some t => if t ≠ "" then pyStrip t else testngShortTrace exc
        | none => testngShortTrace exc
      | none => testngShortTrace exc
    (error_type, error_message, stack_trace)
where
  testngShortTrace (exc : Xml) : String :=
    match exc.findChild "short-stacktrace" with
    | some s => match s.text with
                | some t => if t ≠ "" then pyStrip t else ""
                | none => ""
    | none => ""

/-- `params` of one TestNG `test-method` (lines 192-199). -/
def testngParams (tm : Xml) : List String :=
  match tm.findDesc "params" with
  | none => []
  | some pe =>
    (pe.findAllDesc "param").foldl
      (fun acc param =>
        match param.findDesc "value" with
        | some v => match v.text with
                    | some t => if t ≠ "" then acc ++ [pyStrip t] else acc
                    | none => acc
        | none => acc)
      []

/-- One failed TestNG `test-method` turned into a failure record
(lines 155-212 of `xml_reader.py`). -/
def testngFailureInfo (tm : Xml) : FailureInfo :=
  let method_name := tm.attrD "name" "Unknown"
  let signature := tm.attrD "signature" ""
  let duration_ms := tm.attrD "duration-ms" "0"
  let class_name := testngClassName signature
  let (error_type, error_message, stack_trace) := testngException tm
  { test_name := method_name, class_name := class_name,
    method_signature := signature, error_type := error_type,
    error_message := error_message, stack_trace := stack_trace,
    duration_ms := duration_ms, params := testngParams tm }

/-- The `error_lines` contributed by one TestNG failure
(lines 214-229 of `xml_reader.py`; note the literal `". "` of the source
f-string `f"{class_name}. {method_name}"`). -/
def testngErrorLines (f : FailureInfo) : List String :=
  let summary0 := f.class_name ++ ". " ++ f.test_name
  let summary1 :=
    if f.params ≠ [] then summary0 ++ "(" ++ String.intercalate ", " f.params ++ ")"
    else summary0
  let summary := summary1 ++ ": " ++ f.error_type
  (if f.error_message ≠ "" then [summary, "  Message: " ++ f.error_message] else [])
  ++ (if f.stack_trace ≠ "" then
        ((pySplit f.stack_trace "\n").take 10).foldl
          (fun acc line => if pyStrip line ≠ "" then acc ++ ["  " ++ pyStrip line] else acc)
          []
      else [])

/-- `XMLReportReader._extract_testng_failures`. -/
def extract_testng_failures (x : Xml) : Except String FailureDetails :=
  let failMethods := x.descendants.filter
    (fun tm => tm.tag = "test-method" && tm.attr "status" = some "FAIL")
  let failures := failMethods.map testngFailureInfo
  let error_lines := failures.flatMap testngErrorLines
  let failed_count := failures.length
  match attrInt x "total" with
  | .error e => .error e
  | .ok total =>
  let result :=
    if failed_count = 0 then "SUCCESS"
    else if (failed_count : Int) = total then "FAILURE"
    else "PARTIAL_FAILURE"
  .ok { failure_count := failed_count, result := result,
        test_failures := failures, error_lines := error_lines,
        has_compilation_error := failures.any (fun f => strIn f.error_type "CompilationError"),
        has_timeout := failures.any (fun f => strIn (pyLower f.error_message) "timeout"),
        has_assertion_error := failures.any
          (fun f => strIn f.error_type "AssertionError" || strIn f.error_type "Assert"),
        fmt := some "testng" }

/-- One failing JUnit `testcase` turned into a failure record
(lines 268-288 of `xml_reader.py`); `none` when the testcase has neither a
`failure` nor an `error` child. -/
def junitFailureInfo (tc : Xml) : Option FailureInfo :=
  let failure := tc.findChild "failure"
  let error := tc.findChild "error"
  match failure, error with
  | none, none => none
  | _, _ =>
    let e := match failure with
             | some f => f
             | none => error.getD tc
    some { test_name := tc.attrD "name" "Unknown",
           class_name := tc.attrD "classname" "",
           method_signature := "",
           error_type := e.attrD "type" "Error",
           error_message := e.attrD "message" "",
           stack_trace := (e.text).getD "",
           duration_ms := "", params := [] }

/-- The `error_lines` contributed by one JUnit failure (lines 292-297). -/
def junitErrorLines (f : FailureInfo) : List String :=
  (if f.error_message ≠ "" then
     [f.class_name ++ "." ++ f.test_name ++ ": " ++ f.error_message]
   else [])
  ++ (if f.stack_trace ≠ "" then (pySplit f.stack_trace "\n").take 5 else [])

/-- `XMLReportReader._extract_junit_failures`. -/
def extract_junit_failures (x : Xml) : Except String FailureDetails :=
  let failures := (x.findAllDesc "testcase").filterMap junitFailureInfo
  let error_lines := failures.flatMap junitErrorLines
  let failed_count := failures.length
  match parse_junit x with  -- `self.parse_report()` recomputed
  | .error e => .error e
  | .ok summary =>
  let total := summary.total_tests
  let result :=
    if failed_count = 0 then "SUCCESS"
    else if (failed_count : Int) = total then "FAILURE"
    else "PARTIAL_FAILURE"
  .ok { failure_count := failed_count, result := result,
        test_failures := failures, error_lines := error_lines,
        has_compilation_error := failures.any (fun f => strIn f.error_type "CompilationError"),
        has_timeout := failures.any (fun f => strIn (pyLower f.error_message) "timeout"),
        has_assertion_error := failures.any (fun f => strIn f.error_type "AssertionError"),
        fmt := some "junit" }

/-- `XMLReportReader.extract_failure_details`. -/
def extract_failure_details (x : Xml) (fmt : String) : Except String FailureDetails :=
  if fmt = "testng" then extract_testng_failures x else extract_junit_failures x

/-- Outcome of constructing `XMLReportReader(path)`: the file may be missing
(`FileNotFoundError`) or fail to parse (`ET.ParseError`, re-raised as
`ValueError`). -/
structure XmlFs where
  files : List (String × Except String Xml)

/-- `XMLReportReader(path)` followed by `_detect_format`. -/
def readerOpen (fs : XmlFs) (path : String) : Except String (Xml × String) :=
  match fs.files.lookup path with
  | none => .error ("XML file not found: " ++ path)
  | some (.error m) => .error ("Invalid XML file: " ++ m)
  | some (.ok x) =>
    match detect_format x with
    | .error e => .error e
    | .ok fmt => .ok (x, fmt)

/-- Everything one file contributes inside `merge_reports`' loop body
(reader construction, `parse_report`, `extract_failure_details`): the
contribution is all-or-nothing, any exception skips the file. -/
def fileContribution (fs : XmlFs) (path : String) :
    Except String (Summary × FailureDetails) :=
  match readerOpen fs path with
  | .error e => .error e
  | .ok (x, fmt) =>
    match parse_report x fmt with
    | .error e => .error e
    | .ok results =>
      match extract_failure_details x fmt with
      | .error e => .error e
      | .ok failures => .ok (results, failures)

/-- The merged dictionary built by `XMLReportReader.merge_reports`. -/
structure MergedReport where
  total_tests : Int
  passed_tests : Int
  failed_tests : Int
  error_tests : Int
  skipped_tests : Int
  duration_seconds : ℚ
  test_failures : List FailureInfo
  error_lines : List String
  failure_count : Nat
  formats : List String
  result : String
  has_compilation_error : Bool
  has_timeout : Bool
  has_assertion_error : Bool
deriving DecidableEq

def emptyMerged : MergedReport :=
  { total_tests := 0, passed_tests := 0, failed_tests := 0, error_tests := 0,
    skipped_tests := 0, duration_seconds := 0, test_failures := [],
    error_lines := [], failure_count := 0, formats := [], result := "",
    has_compilation_error := false, has_timeout := false,
    has_assertion_error := false }

/-- The loop body of `merge_reports` for one file. -/
def mergeStep (fs : XmlFs) (m : MergedReport) (path : String) : MergedReport :=
  match fileContribution fs path with
  | .error _ => m  -- `print warning; continue`
  | .ok (results, failures) =>
    { m with
      total_tests := m.total_tests + results.total_tests,
      passed_tests := m.passed_tests + results.passed_tests,
      failed_tests := m.failed_tests + results.failed_tests,
      error_tests := m.error_tests + results.error_tests,
      skipped_tests := m.skipped_tests + results.skipped_tests,
      duration_seconds := fpAdd m.duration_seconds results.duration_seconds,
      failure_count := m.failure_count + failures.failure_count,
      test_failures := m.test_failures ++ failures.test_failures,
      error_lines := m.error_lines ++ failures.error_lines,
      formats := match results.fmt with
                 | some f => if m.formats.contains f then m.formats else m.formats ++ [f]
                 | none => m.formats }

/-- `XMLReportReader.merge_reports`. -/
def merge_reports (fs : XmlFs) (xml_paths : List String) : MergedReport :=
  let m := xml_paths.foldl (mergeStep fs) emptyMerged
  let result :=
    if m.failure_count = 0 then "SUCCESS"
    else if (m.failure_count : Int) = m.total_tests then "FAILURE"
    else "PARTIAL_FAILURE"
  { m with
    result := result,
    has_compilation_error := m.test_failures.any (fun f => strIn f.error_type "CompilationError"),
    has_timeout := m.test_failures.any (fun f => strIn (pyLower f.error_message) "timeout"),
    has_assertion_error := m.test_failures.any
      (fun f => strIn f.error_type "AssertionError" || strIn f.error_type "Assert") }

/-! ### `clients/test_finder.py` — JavaTestFinder -/

/-- The repository checkout seen by `JavaTestFinder` / `LocalRepoClient`:
existing files as component paths relative to the repository root.
A directory "exists" when it is the root or some file lies beneath it
(observationally equivalent for `exists()`+`rglob`, which return nothing on
missing or empty directories). -/
structure RepoFs where
  repoExists : Bool
  repoIsDir : Bool
  files : List (List String)

def pathComponents (s : String) : List String :=
  (splitCharStr s '/').filter (fun c => c ≠ "")

def pathStr (p : List String) : String := String.intercalate "/" p

def RepoFs.fileExists (fs : RepoFs) (p : List String) : Bool := fs.files.contains p

def RepoFs.dirExists (fs : RepoFs) (d : List String) : Bool :=
  if d.isEmpty then fs.repoExists else fs.files.any (fun p => d.isPrefixOf p)

/-- `search_path.rglob(name)`: files under `d` (any depth) whose final
component is `name`, in file-system (list) order. -/
def RepoFs.rglob (fs : RepoFs) (d : List String) (name : String) : List (List String) :=
  fs.files.filter (fun p => d.isPrefixOf p && p.getLast? = some name)

/-- `re.match(r'(.+)\.([^.]+)\(.*\)$', signature)` with the groups resolved by
greedy matching: the decompositions `A ++ "." ++ B ++ "(" ++ C ++ ")"` with
`A` nonempty and `B` nonempty and dot-free, taking the largest `A` and then
the largest `B`.  Returns `(A, B)` = (full class name, method name). -/
def parse_signature (s : String) : Option (String × String) :=
  let cs := s.data
  let n := cs.length
  if cs.getLast? ≠ some ')' then none
  else
    let valid : Nat → Nat → Bool := fun i j =>
      1 ≤ i && i + 2 ≤ j && j + 2 ≤ n &&
      cs.get? i = some '.' && cs.get? j = some '(' &&
      ((List.range (j - i - 1)).all (fun k => cs.get? (i + 1 + k) ≠ some '.'))
    let cands := (List.range n).flatMap (fun i =>
      (List.range n).filterMap (fun j => if valid i j then some (i, j) else none))
    match cands.foldl
        (fun best c =>
          match best with
          | none => some c
          | some b => if c.1 > b.1 || (c.1 = b.1 && c.2 > b.2) then some c else b)
        none with
    | none => none
    | some (i, j) => some (⟨cs.take i⟩, ⟨(cs.drop (i + 1)).take (j - i - 1)⟩)

/-- A located test: the dictionary built by `JavaTestFinder`.  The
fallback-by-parts branch builds a dictionary without `package` /
`relative_path` keys; those keys are never read downstream, so they are
modelled as `""` there.  `file_path` is kept repository-relative. -/
structure TestInfo where
  file_path : String
  class_name : String
  full_class_name : String
  method_name : String
  package : String
  relative_path : String
  failure_info : FailureInfo
deriving DecidableEq

/-- `test_dirs` resolution: the explicit list, or the default Java source
locations plus the repository root. -/
def resolveDirs (test_dirs : Option (List String)) : List (List String) :=
  match test_dirs with
  | some ds => ds.map pathComponents
  | none => [["src", "test", "java"], ["src", "main", "java"], []]

/-- The search-path loop of `JavaTestFinder.find_test_by_signature`
(direct path first, then `rglob` by simple class name, first hit wins). -/
def findSigInDirs (fs : RepoFs) (full method class_name : String)
    (rel : List String) (fail : FailureInfo) : List (List String) → Option TestInfo
  | [] => none
  | d :: rest =>
    if fs.fileExists (d ++ rel) then
      some { file_path := pathStr (d ++ rel), class_name := class_name,
             full_class_name := full, method_name := method,
             package := String.intercalate "." ((splitCharStr full '.').dropLast),
             relative_path := pathStr rel, failure_info := fail }
    else
      match fs.rglob d (class_name ++ ".java") with
      | f :: _ =>
        some { file_path := pathStr f, class_name := class_name,
               full_class_name := full, method_name := method,
               package := String.intercalate "." ((splitCharStr full '.').dropLast),
               relative_path := pathStr (f.drop d.length), failure_info := fail }
      | [] => findSigInDirs fs full method class_name rel fail rest

/-- `JavaTestFinder.find_test_by_signature` (the `failure_info` key is
attached by the caller in the source; here it is threaded through). -/
def find_test_by_signature (fs : RepoFs) (signature : String)
    (test_dirs : Option (List String)) (fail : FailureInfo) : Option TestInfo :=
  match parse_signature signature with
  | none => none
  | some (full, method) =>
    let class_name := (splitCharStr full '.').getLastD ""
    let rel := pathComponents (⟨full.data.map (fun c => if c = '.' then '/' else c)⟩ ++ ".java")
    findSigInDirs fs full method class_name rel fail (resolveDirs test_dirs)

/-- `JavaTestFinder._search_by_class_name`. -/
def search_by_class_name (fs : RepoFs) (class_name : String)
    (test_dirs : Option (List String)) : List String :=
  (resolveDirs test_dirs).flatMap (fun d =>
    if fs.dirExists d then (fs.rglob d (class_name ++ ".java")).map pathStr else [])

/-- The loop body of `JavaTestFinder.find_tests_for_failures` for one
failure record. -/
def findOneFailure (fs : RepoFs) (test_dirs : Option (List String))
    (failure : FailureInfo) : Option TestInfo :=
  if failure.method_signature ≠ "" then
    match find_test_by_signature fs failure.method_signature test_dirs failure with
    | some ti => some ti
    | none =>
      -- `simple_class = class_name.split('.')[-1]`
      if failure.class_name ≠ "" && failure.test_name ≠ "" then
        match search_by_class_name fs ((splitCharStr failure.class_name '.').getLastD "") test_dirs with
        | p :: _ =>
          some { file_path := p,
                 class_name := (splitCharStr failure.class_name '.').getLastD "",
                 full_class_name := failure.class_name,
                 method_name := failure.test_name,
                 package := "", relative_path := "", failure_info := failure }
        | [] => none
      else none
  else none

/-- `JavaTestFinder.find_tests_for_failures`. -/
def find_tests_for_failures (fs : RepoFs) (failure_details : FailureDetails)
    (test_dirs : Option (List String)) : List TestInfo :=
  failure_details.test_failures.foldl
    (fun acc failure =>
      match findOneFailure fs test_dirs failure with
      | some ti => acc ++ [ti]
      | none => acc)
    []

/-- `JavaTestFinder.detect_build_system`. -/
def detect_build_system (fs : RepoFs) : Option String :=
  if fs.fileExists ["pom.xml"] then some "maven"
  else if fs.fileExists ["build.gradle"] || fs.fileExists ["build.gradle.kts"] then
    some "gradle"
  else none

/-! ### `clients/java_executor.py` — JavaTestExecutor -/

/-- What the single blocking `subprocess.run` call would do: normal
completion with an exit code and captured streams, timeout expiry
(`subprocess.TimeoutExpired`), missing executable (`FileNotFoundError`), or
any other exception. -/
inductive SubOutcome where
  | completed (returncode : Int) (stdout stderr : String)
  | timedOut
  | fileNotFound
  | raised (msg : String)
deriving DecidableEq

/-- The executor's result dictionary; `command` is absent (`none`) on the
early returns that never build a command line. -/
structure ExecResult where
  success : Bool
  output : String
  errors : List String
  exit_code : Int
  command : Option String
deriving DecidableEq

/-- `'#'.join` selector construction shared by both build tools:
`test_info.get('full_class_name') or test_info.get('class_name')` with
Python truthiness. -/
def testSpecClass (t : TestInfo) : String :=
  if t.full_class_name ≠ "" then t.full_class_name else t.class_name

/-- `JavaTestExecutor._run_maven_tests`. -/
def run_maven_tests (test_infos : List TestInfo) (timeout : Nat)
    (sub : SubOutcome) : ExecResult :=
  let test_specs := test_infos.filterMap (fun t =>
    let class_name := testSpecClass t
    if class_name ≠ "" && t.method_name ≠ "" then
      some (class_name ++ "#" ++ t.method_name)
    else if class_name ≠ "" then some class_name
    else none)
  if test_specs.isEmpty then
    { success := false, output := "", errors := ["Could not build test specification"],
      exit_code := -1, command := none }
  else
    let command := String.intercalate " "
      ["mvn", "test", "-Dtest=" ++ String.intercalate "," test_specs, "-DfailIfNoTests=false"]
    match sub with
    | .completed rc out err =>
      { success := rc = 0, output := out,
        errors := if err ≠ "" then [err] else [],
        exit_code := rc, command := some command }
    | .timedOut =>
      { success := false, output := "",
        errors := ["Test execution timed out after " ++ toString timeout ++ " seconds"],
        exit_code := -1, command := some command }
    | .fileNotFound =>
      { success := false, output := "",
        errors := ["Maven (mvn) command not found.  Make sure Maven is installed and in PATH."],
        exit_code := -1, command := some command }
    | .raised msg =>
      { success := false, output := "",
        errors := ["Test execution failed: " ++ msg],
        exit_code := -1, command := some command }

/-- `JavaTestExecutor._run_gradle_tests` (the source f-string
`f"{class_name}. {method_name}"` contains the literal `". "`). -/
def run_gradle_tests (test_infos : List TestInfo) (timeout : Nat)
    (sub : SubOutcome) : ExecResult :=
  let testFlags := test_infos.flatMap (fun t =>
    let class_name := testSpecClass t
    if class_name ≠ "" && t.method_name ≠ "" then
      ["--tests", class_name ++ ". " ++ t.method_name]
    else if class_name ≠ "" then ["--tests", class_name]
    else [])
  if testFlags.isEmpty then
    { success := false, output := "", errors := ["Could not build test specification"],
      exit_code := -1, command := none }
  else
    let command := String.intercalate " " (["gradle", "test"] ++ testFlags)
    match sub with
    | .completed rc out err =>
      { success := rc = 0, output := out,
        errors := if err ≠ "" then [err] else [],
        exit_code := rc, command := some command }
    | .timedOut =>
      { success := false, output := "",
        errors := ["Test execution timed out after " ++ toString timeout ++ " seconds"],
        exit_code := -1, command := some command }
    | .fileNotFound =>
      { success := false, output := "",
        errors := ["Gradle command not found. Make sure Gradle is installed and in PATH."],
        exit_code := -1, command := some command }
    | .raised msg =>
      { success := false, output := "",
        errors := ["Test execution failed: " ++ msg],
        exit_code := -1, command := some command }

/-- `JavaTestExecutor.run_specific_tests`. -/
def run_specific_tests (build_system : String) (test_infos : List TestInfo)
    (timeout : Nat) (sub : SubOutcome) : ExecResult :=
  if test_infos.isEmpty then
    { success := false, output := "", errors := ["No tests to run"],
      exit_code := -1, command := none }
  else if build_system = "maven" then run_maven_tests test_infos timeout sub
  else if build_system = "gradle" then run_gradle_tests test_infos timeout sub
  else
    { success := false, output := "",
      errors := ["Unsupported build system: " ++ build_system],
      exit_code := -1, command := none }

/-! ### `nodes/root_cause_analyzer.py` — response parsing (lines 181-237) -/

/-- `re.search(r'(\d+(?:\.\d+)?)\s*%', line)`: the value of the first
percentage-like numeral, scanning start positions left to right
(maximal-munch digit runs; backtracking inside a digit run cannot create a
match the next start position would miss). -/
def confSearch : List Char → Option ℚ
  | [] => none
  | c :: rest =>
    let ds := (c :: rest).takeWhile Char.isDigit
    let tryHere : Option ℚ :=
      if ds.isEmpty then none
      else
        let after := (c :: rest).drop ds.length
        let (fds, after2) : List Char × List Char :=
          match after with
          | '.' :: a =>
            let f := a.takeWhile Char.isDigit
            if f.isEmpty then ([], after) else (f, a.drop f.length)
          | _ => ([], after)
        let after3 := after2.dropWhile (fun x => pyWs.contains x)
        if after3.head? = some '%' then
          some ((digitsVal ds : ℚ) + (digitsVal fds : ℚ) / (10 ^ fds.length : ℕ))
        else none
    match tryHere with
    | some v => some v
    | none => confSearch rest

/-- The `**Root Cause:**` extraction (lines 186-190). -/
def llmRootCause (analysis_text : String) : String :=
  if strIn analysis_text "**Root Cause:**" then
    match pySplit analysis_text "**Root Cause:**" with
    | _ :: p1 :: _ =>
      let sec :=
        if strIn p1 "**Confidence:**" then (pySplit p1 "**Confidence:**").headD ""
        else if strIn p1 "**Recommendations:**" then
          (pySplit p1 "**Recommendations:**").headD ""
        else p1
      pyStrip sec
    | _ => "Unable to determine root cause"
  else "Unable to determine root cause"

/-- The `**Confidence:**` extraction (lines 193-202). -/
def llmConfidence (analysis_text : String) : ℚ :=
  if strIn analysis_text "**Confidence:**" then
    match pySplit analysis_text "**Confidence:**" with
    | _ :: p1 :: _ =>
      let confSection :=
        if strIn p1 "**Recommendations:**" then (pySplit p1 "**Recommendations:**").headD ""
        else p1
      let confLine := (pySplit (pyStrip confSection) "\n").headD ""
      match confSearch confLine.data with
      | some v => fpDiv (fpRound v) 100  -- `float(match.group(1)) / 100.0`
      | none => 0
    | _ => 0
  else 0

/-- The characters `line.lstrip('0123456789.-â€¢) ')` strips (the source file
carries the mojibake bullet `â€¢` literally). -/
def recStripSet : List Char := "0123456789.-â€¢) ".data

/-- The `**Recommendations:**` extraction (lines 205-216). -/
def llmRecommendations (analysis_text : String) : List String :=
  if strIn analysis_text "**Recommendations:**" then
    match pySplit analysis_text "**Recommendations:**" with
    | _ :: p1 :: _ =>
      let recSection := pyStrip p1
      (pySplit recSection "\n").foldl
        (fun acc line0 =>
          let line := pyStrip line0
          if line ≠ "" &&
              ((line.data.headD ' ').isDigit || line.startsWith "-" || line.startsWith "â€¢") then
            let rec_ := pyStrip (pyLstripSet recStripSet line)
            if rec_ ≠ "" then acc ++ [rec_] else acc
          else acc)
        []
    | _ => []
  else []

/-- The whole response-parsing block of `root_cause_analyzer`. -/
def parseLlmResponse (analysis_text : String) : String × ℚ × List String :=
  (llmRootCause analysis_text, llmConfidence analysis_text,
   llmRecommendations analysis_text)

/-! ### Python number formatting used by the report -/

/-- Python `f"{q:.2f}"` (for the nonnegative values the report prints). -/
def fmtFixed2 (q : ℚ) : String :=
  let m := roundHalfEven (q * 100)
  let a := m.natAbs
  let fp := a % 100
  (if m < 0 then "-" else "") ++ toString (a / 100) ++ "." ++
    (if fp < 10 then "0" ++ toString fp else toString fp)

/-- Python `f"{q:.0%}"`. -/
def fmtPercent0 (q : ℚ) : String := toString (roundHalfEven (q * 100)) ++ "%"

/-! ### `nodes/results_collector.py` — collected dictionaries -/

/-- The `test_report` dictionary (lines 32-41 of `results_collector.py`);
`test_name` keeps the possibly-`None` state value. -/
structure TestReport where
  xml_paths : List String
  test_name : Option String
  total_tests : Int
  passed_tests : Int
  failed_tests : Int
  error_tests : Int
  skipped_tests : Int
  result : String
deriving DecidableEq

/-- The `local_execution` dictionary (lines 44-49): `exit_code` and
`success` store the raw state values (possibly `None`). -/
structure LocalExecution where
  exit_code : Option Int
  success : Option Bool
  output_length : Nat
  error_count : Nat
deriving DecidableEq

/-- The `comparison` dictionary (lines 56-61). -/
structure Comparison where
  xml_failed : Bool
  local_failed : Bool
  consistent_failure : Bool
  reproducible : Bool
deriving DecidableEq

/-- The `collected_data` dictionary (lines 64-68). -/
structure CollectedData where
  test_report : TestReport
  local_execution : LocalExecution
  comparison : Comparison
deriving DecidableEq

/-! ### `state.py` — FailureAnalysisState -/

/-- The workflow state dictionary.  Every key of the initial state is
present; `Option` distinguishes a `None` value.  `repo_path` is a plain
string (`""` standing for a missing/empty path, which is falsy in the
source's `if not repo_path`). -/
structure PState where
  xml_report_paths : List String
  repo_path : String
  test_name : Option String
  test_results : Option Summary
  failure_details : Option FailureDetails
  code_files : Option (List String)
  local_output : Option String
  local_errors : Option (List String)
  local_exit_code : Option Int
  execution_success : Option Bool
  collected_data : Option CollectedData
  root_cause : Option String
  confidence_level : Option ℚ
  recommendations : Option (List String)
  llm_full_response : Option String
  final_report : Option String
  workflow_status : String
  error_message : Option String
  found_tests : Option (List TestInfo)
  test_command : Option String

/-! ### The six workflow nodes (`graph.py` wires them with unconditional
edges: fetch_xml → access_repo → execute_local → collect_results →
analyze_root_cause → generate_report → END) -/

/-- The merged dictionary viewed through the `test_results` reads
(no `'format'` key on the merged dictionary). -/
def mergedSummary (m : MergedReport) : Summary :=
  { total_tests := m.total_tests, passed_tests := m.passed_tests,
    failed_tests := m.failed_tests, error_tests := m.error_tests,
    skipped_tests := m.skipped_tests, duration_seconds := m.duration_seconds,
    fmt := none }

/-- The merged dictionary viewed through the `failure_details` reads. -/
def mergedDetails (m : MergedReport) : FailureDetails :=
  { failure_count := m.failure_count, result := m.result,
    test_failures := m.test_failures, error_lines := m.error_lines,
    has_compilation_error := m.has_compilation_error,
    has_timeout := m.has_timeout,
    has_assertion_error := m.has_assertion_error, fmt := none }

/-- `nodes/xml_fetcher.py` — `xml_report_fetcher`. -/
def xml_report_fetcher (xfs : XmlFs) (s : PState) : PState :=
  if s.xml_report_paths.isEmpty then
    { s with workflow_status := "error",
             error_message := some "No XML paths provided" }
  else
    match s.xml_report_paths with
    | [p] =>
      match fileContribution xfs p with
      | .ok (tr, fd) =>
        { s with test_results := some tr, failure_details := some fd,
                 workflow_status := "xml_fetched" }
      | .error e =>
        { s with workflow_status := "error",
                 error_message := some ("XML parsing failed: " ++ e) }
    | _ =>
      let m := merge_reports xfs s.xml_report_paths
      { s with test_results := some (mergedSummary m),
               failure_details := some (mergedDetails m),
               workflow_status := "xml_fetched" }

/-- Directory names `LocalRepoClient.list_files` skips. -/
def ignoreParts : List String := [".git", "__pycache__", "node_modules", ".venv", "venv"]

/-- `pathlib.PurePath.suffix`. -/
def pySuffix (name : String) : String :=
  let cs := name.data
  match ((List.range cs.length).filter (fun k => cs.get? k = some '.')).getLast? with
  | none => ""
  | some i => if 0 < i ∧ i + 1 < cs.length then ⟨cs.drop i⟩ else ""

def insertSorted (x : String) : List String → List String
  | [] => [x]
  | y :: ys => if x ≤ y then x :: y :: ys else y :: insertSorted x ys

/-- Python `sorted` on strings (stable, ascending). -/
def sortStrings (l : List String) : List String := l.foldr insertSorted []

/-- `LocalRepoClient.list_files`. -/
def list_files (fs : RepoFs) (extensions : List String) : List String :=
  sortStrings ((fs.files.filter (fun p =>
    !(p.any (fun part => ignoreParts.contains part)) &&
      extensions.contains (pySuffix (p.getLastD "")))).map pathStr)

/-- `nodes/local_repo_access.py` — `local_repo_access` (a partial state
update: only `code_files` and `workflow_status` change, or the error pair). -/
def local_repo_access (rfs : RepoFs) (extensions : List String) (s : PState) : PState :=
  if ¬ rfs.repoExists then
    { s with workflow_status := "error",
             error_message := some ("Local repo access failed: Repository path not found: "
                                    ++ s.repo_path) }
  else if ¬ rfs.repoIsDir then
    { s with workflow_status := "error",
             error_message := some ("Local repo access failed: Repository path is not a directory: "
                                    ++ s.repo_path) }
  else
    { s with code_files := some (list_files rfs extensions),
             workflow_status := "repo_accessed" }

/-- The `test_dirs` hard-coded in `local_executor` (line 99). -/
def executorTestDirs : List String := ["src/main/java/com/crb/mcsend/testers"]

/-- `nodes/local_executor.py` — `local_executor`. -/
def local_executor (rfs : RepoFs) (sub : SubOutcome) (s : PState) : PState :=
  if s.repo_path = "" then
    { s with local_output := some "", local_errors := some ["No repository path provided"],
             local_exit_code := some (-1), execution_success := some false,
             workflow_status := "executed" }
  else
    -- `state.get('failure_details') or {}` followed by `.get('failure_count', 0)`
    let count0 := (s.failure_details.map (·.failure_count)).getD 0
    if count0 = 0 then
      { s with local_output := some "No failures to reproduce", local_errors := some [],
               local_exit_code := some 0, execution_success := some true,
               workflow_status := "executed" }
    else
      match s.failure_details with
      | none =>  -- unreachable: `count0 ≠ 0` forces a present dictionary
        { s with local_output := some "", local_errors := some [],
                 local_exit_code := some (-1), execution_success := some false,
                 workflow_status := "executed" }
      | some fd =>
        if ¬ rfs.repoExists then
          -- `JavaTestFinder.__init__` raises; caught by the node's `except`
          { s with local_output := some "",
                   local_errors := some ["Repository not found: " ++ s.repo_path],
                   local_exit_code := some (-1), execution_success := some false,
                   workflow_status := "executed" }
        else
          match detect_build_system rfs with
          | none =>
            { s with local_output := some "Build system not detected (Maven/Gradle required)",
                     local_errors := some ["No pom.xml or build.gradle found"],
                     local_exit_code := some (-1), execution_success := some false,
                     workflow_status := "executed" }
          | some build_system =>
            let found_tests := find_tests_for_failures rfs fd (some executorTestDirs)
            if found_tests.isEmpty then
              { s with local_output := some "Failed tests not found in repository",
                       local_errors := some ["Test files could not be located"],
                       local_exit_code := some (-1), execution_success := some false,
                       workflow_status := "executed" }
            else
              let result := run_specific_tests build_system found_tests 300 sub
              { s with local_output := some result.output,
                       local_errors := some result.errors,
                       local_exit_code := some result.exit_code,
                       execution_success := some result.success,
                       workflow_status := "executed",
                       found_tests := some found_tests,
                       test_command := some (result.command.getD "") }

/-- `nodes/results_collector.py` — `results_collector`.  With
`test_results` or `failure_details` still `None`, the body's
`.get`-chain raises `AttributeError`, caught by the node's `except`, which
produces the error partial update (no `collected_data`). -/
def results_collector (s : PState) : PState :=
  match s.test_results, s.failure_details with
  | some tr, some fd =>
    let test_report : TestReport :=
      { xml_paths := s.xml_report_paths, test_name := s.test_name,
        total_tests := tr.total_tests, passed_tests := tr.passed_tests,
        failed_tests := tr.failed_tests, error_tests := tr.error_tests,
        skipped_tests := tr.skipped_tests, result := fd.result }
    let local_execution : LocalExecution :=
      { exit_code := s.local_exit_code, success := s.execution_success,
        output_length := (s.local_output.getD "").length,
        error_count := (s.local_errors.getD []).length }
    let xml_failed : Bool := tr.failed_tests > 0 || tr.error_tests > 0
    -- `not local_execution['success']` (with `not None = True`)
    let local_failed : Bool :=
      match s.execution_success with
      | some true => false
      | _ => true
    let consistent_failure : Bool := xml_failed == local_failed
    let comparison : Comparison :=
      { xml_failed := xml_failed, local_failed := local_failed,
        consistent_failure := consistent_failure,
        reproducible := consistent_failure && xml_failed }
    { s with collected_data := some ⟨test_report, local_execution, comparison⟩,
             workflow_status := "results_collected" }
  | _, _ =>
    { s with workflow_status := "error",
             error_message :=
               some "Results collection failed: 'NoneType' object has no attribute 'get'" }

/-- The fixed fallback recommendations of the analyzer's `except` branch. -/
def fallbackRecommendations : List String :=
  ["Manual investigation required", "Check AWS credentials", "Review error logs"]

/-- `nodes/root_cause_analyzer.py` — `root_cause_analyzer`.  The LLM
round-trip (client construction plus `chain.invoke`) is the oracle `llm`;
any exception it raises lands in the node's `except` branch. -/
def root_cause_analyzer (llm : Except String String) (s : PState) : PState :=
  match llm with
  | .error e =>
    { s with root_cause := some ("Analysis failed: " ++ e),
             confidence_level := some 0,
             recommendations := some fallbackRecommendations,
             llm_full_response := some ("Error: " ++ e),
             workflow_status := "error",
             error_message := some ("Analysis failed: " ++ e) }
  | .ok analysis_text =>
    let (rc, conf, recs) := parseLlmResponse analysis_text
    { s with root_cause := some rc,
             confidence_level := some conf,
             recommendations :=
               some (if recs ≠ [] then recs else ["See detailed analysis for recommendations"]),
             llm_full_response := some analysis_text,
             workflow_status := "analyzed" }

/-- `'Yes' if b else 'No'`. -/
def yesNo (b : Bool) : String := if b then "Yes" else "No"

/-- `enumerate(l, 1)`. -/
def enum1 {α : Type} (l : List α) : List (Nat × α) :=
  ((List.range l.length).map (fun i => i + 1)).zip l

/-- The defaults the generator's `or {}` reads produce. -/
def emptySummary : Summary :=
  { total_tests := 0, passed_tests := 0, failed_tests := 0, error_tests := 0,
    skipped_tests := 0, duration_seconds := 0, fmt := none }

def emptyDetails : FailureDetails :=
  { failure_count := 0, result := "", test_failures := [], error_lines := [],
    has_compilation_error := false, has_timeout := false,
    has_assertion_error := false, fmt := none }

/-- `state.get(k) or default` on an optional string. -/
def orStr (o : Option String) (d : String) : String :=
  match o with
  | some s => if s = "" then d else s
  | none => d

/-- The report lines built by `report_generator` (lines 43-162 of
`report_generator.py`); `ts` stands for `datetime.now().strftime(...)`. -/
def reportLines (ts : String) (s : PState) : List String :=
  let xml_paths := s.xml_report_paths
  let test_name := orStr s.test_name "Test Analysis"
  let tr := s.test_results.getD emptySummary
  let fd := s.failure_details.getD emptyDetails
  let root_cause := orStr s.root_cause "Unable to determine root cause"
  let confidence_level := (s.confidence_level.getD 0 : ℚ)
  let recommendations :=
    match s.recommendations with
    | some (r :: rs) => r :: rs
    | _ => ["No recommendations available"]
  ["# Test Failure Analysis Report", "",
   "**Generated:** " ++ ts,
   "**Test Name:** " ++ test_name, "",
   "## XML Test Report", ""]
  ++ (if xml_paths.length = 1 then
        ["**File:** `" ++ xml_paths.headD "" ++ "`"]
      else
        ("**Files:** " ++ toString xml_paths.length ++ " XML reports") ::
          (enum1 xml_paths).map (fun ip => "  " ++ toString ip.1 ++ ". `" ++ ip.2 ++ "`"))
  ++ ["",
      "### Test Statistics", "",
      "- **Total Tests:** " ++ toString tr.total_tests,
      "- **Passed:** " ++ toString tr.passed_tests,
      "- **Failed:** " ++ toString tr.failed_tests,
      "- **Errors:** " ++ toString tr.error_tests,
      "- **Skipped:** " ++ toString tr.skipped_tests,
      "- **Duration:** " ++ fmtFixed2 tr.duration_seconds ++ "s",
      "- **Format:** " ++ pyUpper (tr.fmt.getD "Unknown"),
      "- **Result:** " ++ (match s.collected_data with
                           | some cd => cd.test_report.result
                           | none => "UNKNOWN"),
      ""]
  ++ (if fd.failure_count > 0 then
        ["### Failure Details", "",
         "**Failed Test Count:** " ++ toString fd.failure_count, ""]
        ++ (if fd.test_failures ≠ [] then
              ["**Failed Tests:**", ""]
              ++ (enum1 (fd.test_failures.take 10)).flatMap (fun onef =>
                   [toString onef.1 ++ ". **" ++ onef.2.class_name ++ ". "
                      ++ onef.2.test_name ++ "**",
                    "   - **Type:** `" ++ onef.2.error_type ++ "`",
                    "   - **Message:** " ++ onef.2.error_message,
                    ""])
              ++ (if fd.test_failures.length > 10 then
                    ["*... and " ++ toString (fd.test_failures.length - 10)
                       ++ " more failures*", ""]
                  else [])
            else [])
        ++ ["**Error Indicators:**", "",
            "- Compilation Error: " ++ yesNo fd.has_compilation_error,
            "- Timeout: " ++ yesNo fd.has_timeout,
            "- Assertion Error: " ++ yesNo fd.has_assertion_error, ""]
      else [])
  ++ ["## Local Execution Results", "",
      "- **Exit Code:** " ++ (match s.collected_data with
                              | none => "N/A"
                              | some cd => match cd.local_execution.exit_code with
                                           | none => "None"
                                           | some i => toString i),
      "- **Success:** " ++ yesNo (match s.collected_data with
                                  | some cd => cd.local_execution.success = some true
                                  | none => false),
      "- **Output Length:** " ++ toString (match s.collected_data with
                                           | some cd => cd.local_execution.output_length
                                           | none => 0) ++ " characters",
      "- **Error Count:** " ++ toString (match s.collected_data with
                                         | some cd => cd.local_execution.error_count
                                         | none => 0),
      ""]
  ++ ["## Comparison Analysis", "",
      "- **XML Reports Failure:** " ++ yesNo (match s.collected_data with
                                              | some cd => cd.comparison.xml_failed
                                              | none => false),
      "- **Local Execution Failed:** " ++ yesNo (match s.collected_data with
                                                 | some cd => cd.comparison.local_failed
                                                 | none => false),
      "- **Consistent Failure:** " ++ yesNo (match s.collected_data with
                                             | some cd => cd.comparison.consistent_failure
                                             | none => false),
      "- **Reproducible:** " ++ yesNo (match s.collected_data with
                                       | some cd => cd.comparison.reproducible
                                       | none => false),
      ""]
  ++ ["## Root Cause Analysis", "",
      "**Confidence Level:** " ++ fmtPercent0 confidence_level, "",
      "### Analysis", "",
      root_cause, ""]
  ++ ["## Recommendations", ""]
  ++ (enum1 recommendations).map (fun ir => toString ir.1 ++ ". " ++ ir.2)
  ++ [""]
  ++ (if fd.error_lines ≠ [] then
        ["## Error Messages", "", "```"]
        ++ fd.error_lines.take 50
        ++ (if fd.error_lines.length > 50 then
              ["... and " ++ toString (fd.error_lines.length - 50) ++ " more lines"]
            else [])
        ++ ["```", ""]
      else [])
  ++ ["---", "", "*Report generated by Automation Failure Solver POC*"]

/-- `nodes/report_generator.py` — `report_generator`.  Every read carries an
explicit default, so the `try` body never raises on the modelled state; the
node unconditionally overwrites `workflow_status` with `'completed'`. -/
def report_generator (ts : String) (s : PState) : PState :=
  { s with final_report := some (String.intercalate "\n" (reportLines ts s)),
           workflow_status := "completed" }

/-- `graph.py` — the compiled graph: unconditional edges through all six
nodes (`create_failure_analysis_graph` adds no conditional routing). -/
def runPipeline (xfs : XmlFs) (rfs : RepoFs) (extensions : List String)
    (sub : SubOutcome) (llm : Except String String) (ts : String)
    (s : PState) : PState :=
  report_generator ts
    (root_cause_analyzer llm
      (results_collector
        (local_executor rfs sub
          (local_repo_access rfs extensions
            (xml_report_fetcher xfs s)))))

/-- The initial state of `run_failure_analysis` (lines 72-93 of `graph.py`). -/
def initState (xml_report_paths : List String) (repo_path : String)
    (test_name : Option String) : PState :=
  { xml_report_paths := xml_report_paths, repo_path := repo_path,
    test_name := test_name, test_results := none, failure_details := none,
    code_files := none, local_output := none, local_errors := none,
    local_exit_code := none, execution_success := none, collected_data := none,
    root_cause := none, confidence_level := none, recommendations := none,
    llm_full_response := none, final_report := none,
    workflow_status := "initialized", error_message := none,
    found_tests := none, test_command := none }

/-! ### Claims -/

/-- C1: whenever aggregation runs (the collector's state carries parsed
results, failure details and a recorded execution-success flag), the
comparison satisfies: `xml_failed ↔ failed>0 ∨ errored>0`,
`local_failed ↔ ¬success`, `consistent = (xml_failed == local_failed)` and
`reproducible = consistent ∧ xml_failed`. -/
theorem c1_comparison_flags (s : PState) (tr : Summary) (fd : FailureDetails)
    (b : Bool) (htr : s.test_results = some tr)
    (hfd : s.failure_details = some fd) (hb : s.execution_success = some b) :
    ∃ cd, (results_collector s).collected_data = some cd ∧
      cd.comparison.xml_failed = (tr.failed_tests > 0 || tr.error_tests > 0) ∧
      cd.comparison.local_failed = !b ∧
      cd.comparison.consistent_failure
        = (cd.comparison.xml_failed == cd.comparison.local_failed) ∧
      cd.comparison.reproducible
        = (cd.comparison.consistent_failure && cd.comparison.xml_failed) := by
  simp only [results_collector, htr, hfd, hb]
  refine ⟨_, rfl, ?_, ?_, ?_, ?_⟩ <;> cases b <;> simp

/-- C1 witness: a concrete collector state with a failed report and a
successful local run. -/
theorem c1_comparison_flags_witness :
    ∃ cd, (results_collector
        { initState ["r.xml"] "repo" none with
          test_results := some ⟨3, 2, 1, 0, 0, 0, some "junit"⟩,
          failure_details := some ⟨1, "PARTIAL_FAILURE", [], [], false, false, true, some "junit"⟩,
          execution_success := some true }).collected_data = some cd ∧
      cd.comparison.xml_failed = ((1 : Int) > 0 || (0 : Int) > 0) ∧
      cd.comparison.local_failed = !true ∧
      cd.comparison.consistent_failure
        = (cd.comparison.xml_failed == cd.comparison.local_failed) ∧
      cd.comparison.reproducible
        = (cd.comparison.consistent_failure && cd.comparison.xml_failed) :=
  c1_comparison_flags _ ⟨3, 2, 1, 0, 0, 0, some "junit"⟩
    ⟨1, "PARTIAL_FAILURE", [], [], false, false, true, some "junit"⟩ true rfl rfl rfl

/-- C9: a model response containing none of the three section markers parses
to confidence 0, the sentinel recommendation list and the (nonempty)
fallback root-cause string; the parse is a total function, so no exception
can escape. -/
theorem c9_parse_defaults (s : PState) (text : String)
    (h1 : strIn text "**Root Cause:**" = false)
    (h2 : strIn text "**Confidence:**" = false)
    (h3 : strIn text "**Recommendations:**" = false) :
    (root_cause_analyzer (.ok text) s).root_cause
        = some "Unable to determine root cause" ∧
    (root_cause_analyzer (.ok text) s).confidence_level = some 0 ∧
    (root_cause_analyzer (.ok text) s).recommendations
        = some ["See detailed analysis for recommendations"] ∧
    (root_cause_analyzer (.ok text) s).root_cause ≠ some "" := by
  simp [root_cause_analyzer, parseLlmResponse, llmRootCause, llmConfidence,
        llmRecommendations, h1, h2, h3]

/-- C9 witness: the parse defaults at a concrete marker-free response. -/
theorem c9_parse_defaults_witness :
    (root_cause_analyzer (.ok "I have no idea.") (initState [] "" none)).root_cause
        = some "Unable to determine root cause" ∧
    (root_cause_analyzer (.ok "I have no idea.") (initState [] "" none)).confidence_level
        = some 0 ∧
    (root_cause_analyzer (.ok "I have no idea.") (initState [] "" none)).recommendations
        = some ["See detailed analysis for recommendations"] ∧
    (root_cause_analyzer (.ok "I have no idea.") (initState [] "" none)).root_cause
        ≠ some "" :=
  c9_parse_defaults _ _ (by decide) (by decide) (by decide)

/-- C8: with a located-test list that yields at least one test selector (as
every list produced by the locator does), a missing build-tool executable or
a timeout produces the distinct typed failure result with exit code `-1`,
for Maven and Gradle alike; the executor is a total function of the
subprocess outcome, so no exception escapes it. -/
theorem c8_executor_typed_failures (build_system : String)
    (tests : List TestInfo) (timeout : Nat) (sub : SubOutcome)
    (hbs : build_system = "maven" ∨ build_system = "gradle")
    (hspec : ∃ t ∈ tests, testSpecClass t ≠ "")
    (hsub : sub = SubOutcome.fileNotFound ∨ sub = SubOutcome.timedOut) :
    (run_specific_tests build_system tests timeout sub).success = false ∧
    (run_specific_tests build_system tests timeout sub).exit_code = -1 ∧
    (sub = SubOutcome.fileNotFound →
      (run_specific_tests build_system tests timeout sub).errors
        = [if build_system = "maven" then
             "Maven (mvn) command not found.  Make sure Maven is installed and in PATH."
           else
             "Gradle command not found. Make sure Gradle is installed and in PATH."]) ∧
    (sub = SubOutcome.timedOut →
      (run_specific_tests build_system tests timeout sub).errors
        = ["Test execution timed out after " ++ toString timeout ++ " seconds"]) := by
  obtain ⟨t, ht, hcls⟩ := hspec
  have hne : tests.isEmpty = false := by
    cases tests with
    | nil => simp at ht
    | cons a l => rfl
  rcases hbs with hb | hb <;> subst hb <;>
    rcases hsub with hs | hs <;> subst hs <;>
      simp [run_specific_tests, run_maven_tests, run_gradle_tests, hne] <;>
      split_ifs with h <;>
      first
        | exact absurd (h t ht) (by by_cases hm : t.method_name = "" <;> simp [hcls, hm])
        | simp

def c8FailureInfo : FailureInfo :=
  { test_name := "m", class_name := "com.acme.T",
    method_signature := "com.acme.T.m()", error_type := "AssertionError",
    error_message := "boom", stack_trace := "", duration_ms := "0", params := [] }

def c8TestInfo : TestInfo :=
  { file_path := "src/test/java/com/acme/T.java", class_name := "T",
    full_class_name := "com.acme.T", method_name := "m",
    package := "com.acme", relative_path := "com/acme/T.java",
    failure_info := c8FailureInfo }

/-- C8 witness: the Maven path at a concrete singleton located-test list and
a missing `mvn` executable. -/
theorem c8_executor_typed_failures_witness :
    (run_specific_tests "maven" [c8TestInfo] 300 SubOutcome.fileNotFound).success = false ∧
    (run_specific_tests "maven" [c8TestInfo] 300 SubOutcome.fileNotFound).exit_code = -1 ∧
    (SubOutcome.fileNotFound = SubOutcome.fileNotFound →
      (run_specific_tests "maven" [c8TestInfo] 300 SubOutcome.fileNotFound).errors
        = [if "maven" = "maven" then
             "Maven (mvn) command not found.  Make sure Maven is installed and in PATH."
           else
             "Gradle command not found. Make sure Gradle is installed and in PATH."]) ∧
    (SubOutcome.fileNotFound = SubOutcome.timedOut →
      (run_specific_tests "maven" [c8TestInfo] 300 SubOutcome.fileNotFound).errors
        = ["Test execution timed out after " ++ toString 300 ++ " seconds"]) :=
  c8_executor_typed_failures "maven" [c8TestInfo] 300 SubOutcome.fileNotFound
    (Or.inl rfl) ⟨c8TestInfo, by simp, by decide⟩ (Or.inl rfl)

/-! ### Merge lemmas -/

/-- Summary part a file contributes to `merge_reports` (zero when the file
is skipped by the loop's `except`). -/
def fileSummaryOf (fs : XmlFs) (p : String) : Summary :=
  match fileContribution fs p with
  | .ok (r, _) => r
  | .error _ => emptySummary

/-- Failure-details part a file contributes to `merge_reports`. -/
def fileDetailsOf (fs : XmlFs) (p : String) : FailureDetails :=
  match fileContribution fs p with
  | .ok (_, f) => f
  | .error _ => emptyDetails

/-- Failure list a file contributes to `merge_reports`. -/
def fileFailuresOf (fs : XmlFs) (p : String) : List FailureInfo :=
  (fileDetailsOf fs p).test_failures

theorem extract_testng_count (x : Xml) (fd : FailureDetails)
    (h : extract_testng_failures x = .ok fd) :
    fd.failure_count = fd.test_failures.length := by
  unfold extract_testng_failures at h
  cases ht : attrInt x "total" <;> rw [ht] at h <;> simp at h
  cases h
  simp

theorem extract_junit_count (x : Xml) (fd : FailureDetails)
    (h : extract_junit_failures x = .ok fd) :
    fd.failure_count = fd.test_failures.length := by
  unfold extract_junit_failures at h
  cases ht : parse_junit x <;> rw [ht] at h <;> simp at h
  cases h
  simp

theorem extract_count (x : Xml) (fmt : String) (fd : FailureDetails)
    (h : extract_failure_details x fmt = .ok fd) :
    fd.failure_count = fd.test_failures.length := by
  unfold extract_failure_details at h
  by_cases hf : fmt = "testng"
  · rw [if_pos hf] at h; exact extract_testng_count x fd h
  · rw [if_neg hf] at h; exact extract_junit_count x fd h

theorem fileDetails_count (fs : XmlFs) (p : String) :
    (fileDetailsOf fs p).failure_count = (fileFailuresOf fs p).length := by
  unfold fileFailuresOf fileDetailsOf fileContribution
  cases h1 : readerOpen fs p with
  | error e => simp [emptyDetails]
  | ok v =>
    obtain ⟨x, fmt⟩ := v
    cases h2 : parse_report x fmt with
    | error e => simp [h2, emptyDetails]
    | ok r =>
      cases h3 : extract_failure_details x fmt with
      | error e => simp [h2, h3, emptyDetails]
      | ok f =>
        simp only [h2, h3]
        exact extract_count x fmt f h3

/-- Unrolling the `merge_reports` accumulation loop: every merged integer
count is the accumulator's value plus the sum of the per-file
contributions, and the merged failure list is the in-order concatenation.
(The duration accumulates through IEEE rounding, `fpAdd`, and is therefore
not a plain sum.) -/
theorem merge_foldl_spec (fs : XmlFs) (l : List String) (acc : MergedReport) :
    (l.foldl (mergeStep fs) acc).total_tests
      = acc.total_tests + (l.map (fun p => (fileSummaryOf fs p).total_tests)).sum ∧
    (l.foldl (mergeStep fs) acc).passed_tests
      = acc.passed_tests + (l.map (fun p => (fileSummaryOf fs p).passed_tests)).sum ∧
    (l.foldl (mergeStep fs) acc).failed_tests
      = acc.failed_tests + (l.map (fun p => (fileSummaryOf fs p).failed_tests)).sum ∧
    (l.foldl (mergeStep fs) acc).error_tests
      = acc.error_tests + (l.map (fun p => (fileSummaryOf fs p).error_tests)).sum ∧
    (l.foldl (mergeStep fs) acc).skipped_tests
      = acc.skipped_tests + (l.map (fun p => (fileSummaryOf fs p).skipped_tests)).sum ∧
    (l.foldl (mergeStep fs) acc).failure_count
      = acc.failure_count + (l.map (fun p => (fileDetailsOf fs p).failure_count)).sum ∧
    (l.foldl (mergeStep fs) acc).test_failures
      = acc.test_failures ++ l.flatMap (fileFailuresOf fs) := by
  induction l generalizing acc with
  | nil => simp
  | cons p l ih =>
    obtain ⟨h1, h2, h3, h4, h5, h7, h8⟩ := ih (mergeStep fs acc p)
    have hstep : (mergeStep fs acc p).total_tests
          = acc.total_tests + (fileSummaryOf fs p).total_tests ∧
        (mergeStep fs acc p).passed_tests
          = acc.passed_tests + (fileSummaryOf fs p).passed_tests ∧
        (mergeStep fs acc p).failed_tests
          = acc.failed_tests + (fileSummaryOf fs p).failed_tests ∧
        (mergeStep fs acc p).error_tests
          = acc.error_tests + (fileSummaryOf fs p).error_tests ∧
        (mergeStep fs acc p).skipped_tests
          = acc.skipped_tests + (fileSummaryOf fs p).skipped_tests ∧
        (mergeStep fs acc p).failure_count
          = acc.failure_count + (fileDetailsOf fs p).failure_count ∧
        (mergeStep fs acc p).test_failures
          = acc.test_failures ++ fileFailuresOf fs p := by
      unfold mergeStep fileSummaryOf fileDetailsOf fileFailuresOf
      cases h : fileContribution fs p with
      | error e => simp [h, emptySummary, emptyDetails, fileDetailsOf]
      | ok v => obtain ⟨r, f⟩ := v; simp [h, fileDetailsOf]
    obtain ⟨g1, g2, g3, g4, g5, g7, g8⟩ := hstep
    refine ⟨?_, ?_, ?_, ?_, ?_, ?_, ?_⟩ <;>
      simp only [List.foldl_cons, List.map_cons, List.sum_cons, List.flatMap_cons,
                 h1, h2, h3, h4, h5, h7, h8, g1, g2, g3, g4, g5, g7, g8]
    · ring
    · ring
    · ring
    · ring
    · ring
    · omega
    · simp [List.append_assoc]

/-- A JUnit file whose suite attributes record no `failures` but one
`errors`, with the single testcase carrying an `error` child. -/
def c5ErrorXml : Xml :=
  .elem "testsuite" [("tests", "1"), ("failures", "0"), ("errors", "1")]
    [.elem "testcase" [("name", "t"), ("classname", "com.acme.C")]
      [.elem "error" [("type", "NullPointerException"), ("message", "npe")] [] none] none]
    none

def c5Fs : XmlFs := ⟨[("e.xml", .ok c5ErrorXml)]⟩

/-- C5 counterexample: a merge whose summed `failed` count is 0 does not
yield `SUCCESS` — `merge_reports` derives `result` from the number of
extracted failure records (`failure_count`), not from the summed `failed`
count, and here it reports `FAILURE`. -/
theorem c5_result_not_from_failed_count_cex :
    (merge_reports c5Fs ["e.xml"]).failed_tests = 0 ∧
    (merge_reports c5Fs ["e.xml"]).error_tests = 1 ∧
    (merge_reports c5Fs ["e.xml"]).total_tests = 1 ∧
    (merge_reports c5Fs ["e.xml"]).failure_count = 1 ∧
    (merge_reports c5Fs ["e.xml"]).result = "FAILURE" ∧
    (merge_reports c5Fs ["e.xml"]).result ≠ "SUCCESS" := by
  decide

/-- C5 as amended: for every merge, `result` is `SUCCESS` exactly when the
number of extracted failure records is 0, `FAILURE` exactly when that
number is nonzero and equals the summed total, and `PARTIAL_FAILURE`
otherwise; the merged `failure_count` equals the length of the merged
failure list. -/
theorem c5_merge_result_characterization (fs : XmlFs) (paths : List String) :
    (merge_reports fs paths).failure_count
        = (merge_reports fs paths).test_failures.length ∧
    ((merge_reports fs paths).result = "SUCCESS"
        ↔ (merge_reports fs paths).failure_count = 0) ∧
    ((merge_reports fs paths).result = "FAILURE"
        ↔ (merge_reports fs paths).failure_count ≠ 0 ∧
          ((merge_reports fs paths).failure_count : Int)
            = (merge_reports fs paths).total_tests) ∧
    ((merge_reports fs paths).result = "PARTIAL_FAILURE"
        ↔ (merge_reports fs paths).failure_count ≠ 0 ∧
          ((merge_reports fs paths).failure_count : Int)
            ≠ (merge_reports fs paths).total_tests) := by
  obtain ⟨-, -, -, -, -, h7, h8⟩ := merge_foldl_spec fs paths emptyMerged
  have hpt : ∀ p ∈ paths,
      (fileDetailsOf fs p).failure_count = (fileFailuresOf fs p).length :=
    fun p _ => fileDetails_count fs p
  have hcount : (merge_reports fs paths).failure_count
      = (merge_reports fs paths).test_failures.length := by
    show (paths.foldl (mergeStep fs) emptyMerged).failure_count
        = (paths.foldl (mergeStep fs) emptyMerged).test_failures.length
    rw [h7, h8, List.map_congr_left hpt]
    simp [emptyMerged, List.length_flatMap, Function.comp_def]
  have hres : (merge_reports fs paths).result
      = (if (merge_reports fs paths).failure_count = 0 then "SUCCESS"
         else if ((merge_reports fs paths).failure_count : Int)
             = (merge_reports fs paths).total_tests then "FAILURE"
         else "PARTIAL_FAILURE") := rfl
  refine ⟨hcount, ?_, ?_, ?_⟩ <;> rw [hres] <;> split_ifs with h1 h2 <;> simp_all

set_option maxRecDepth 100000

def c6TimeXml (t : String) : Xml :=
  .elem "testsuite" [("tests", "1"), ("failures", "0"), ("time", t)] [] none

def c6TimeFs : XmlFs :=
  ⟨[("a.xml", .ok (c6TimeXml "0.1")), ("b.xml", .ok (c6TimeXml "0.2")),
    ("c.xml", .ok (c6TimeXml "0.3"))]⟩

/-- C6 counterexample: the merged duration is accumulated with IEEE double
`+=` in input order, which is not associative — merging reports with times
0.1, 0.2, 0.3 yields a different duration than merging them in reverse
order (0.6000000000000001 versus 0.6 in doubles), so the claimed
permutation invariance of the duration count is false of the program. -/
theorem c6_duration_not_invariant_cex :
    ["a.xml", "b.xml", "c.xml"].Perm ["c.xml", "b.xml", "a.xml"] ∧
    (merge_reports c6TimeFs ["a.xml", "b.xml", "c.xml"]).duration_seconds
      ≠ (merge_reports c6TimeFs ["c.xml", "b.xml", "a.xml"]).duration_seconds :=
  ⟨(List.reverse_perm ["a.xml", "b.xml", "c.xml"]).symm, by decide⟩

/-- C6 as amended: the merged integer counts (total, passed, failed,
errored, skipped) are invariant under permutation of the input file order,
and the merged failure list equals the in-order concatenation of the
per-file failure lists; the duration, accumulated with order-dependent
IEEE double addition, is excluded. -/
theorem c6_merge_perm_invariant (fs : XmlFs) (l l2 : List String)
    (h : l.Perm l2) :
    (merge_reports fs l).total_tests = (merge_reports fs l2).total_tests ∧
    (merge_reports fs l).passed_tests = (merge_reports fs l2).passed_tests ∧
    (merge_reports fs l).failed_tests = (merge_reports fs l2).failed_tests ∧
    (merge_reports fs l).error_tests = (merge_reports fs l2).error_tests ∧
    (merge_reports fs l).skipped_tests = (merge_reports fs l2).skipped_tests ∧
    (merge_reports fs l).test_failures = l.flatMap (fileFailuresOf fs) := by
  obtain ⟨a1, a2, a3, a4, a5, -, a8⟩ := merge_foldl_spec fs l emptyMerged
  obtain ⟨b1, b2, b3, b4, b5, -, -⟩ := merge_foldl_spec fs l2 emptyMerged
  have hs : ∀ (f : String → Int), (l.map f).sum = (l2.map f).sum :=
    fun f => (h.map f).sum_eq
  refine ⟨?_, ?_, ?_, ?_, ?_, ?_⟩
  · show (l.foldl (mergeStep fs) emptyMerged).total_tests
        = (l2.foldl (mergeStep fs) emptyMerged).total_tests
    rw [a1, b1, hs]
  · show (l.foldl (mergeStep fs) emptyMerged).passed_tests
        = (l2.foldl (mergeStep fs) emptyMerged).passed_tests
    rw [a2, b2, hs]
  · show (l.foldl (mergeStep fs) emptyMerged).failed_tests
        = (l2.foldl (mergeStep fs) emptyMerged).failed_tests
    rw [a3, b3, hs]
  · show (l.foldl (mergeStep fs) emptyMerged).error_tests
        = (l2.foldl (mergeStep fs) emptyMerged).error_tests
    rw [a4, b4, hs]
  · show (l.foldl (mergeStep fs) emptyMerged).skipped_tests
        = (l2.foldl (mergeStep fs) emptyMerged).skipped_tests
    rw [a5, b5, hs]
  · show (l.foldl (mergeStep fs) emptyMerged).test_failures
        = l.flatMap (fileFailuresOf fs)
    rw [a8]
    simp [emptyMerged]

def c6XmlA : Xml :=
  .elem "testsuite" [("tests", "2"), ("failures", "1"), ("time", "1.5")]
    [.elem "testcase" [("name", "a1"), ("classname", "A")]
      [.elem "failure" [("message", "ma"), ("type", "AssertionError")] [] none] none]
    none

def c6XmlB : Xml :=
  .elem "testng-results"
    [("total", "3"), ("passed", "2"), ("failed", "1"), ("skipped", "0"), ("ignored", "0")]
    [.elem "suite" [("duration-ms", "250")]
      [.elem "test-method"
        [("name", "b1"), ("status", "FAIL"),
         ("signature", "b1()[pri:0, instance:com.acme.B@12ab]")]
        [] none]
      none]
    none

def c6Fs : XmlFs := ⟨[("a.xml", .ok c6XmlA), ("b.xml", .ok c6XmlB)]⟩

/-- C6 witness: the permutation invariance applied to the two-file merge in
both orders. -/
theorem c6_merge_perm_invariant_witness :
    (merge_reports c6Fs ["a.xml", "b.xml"]).total_tests
        = (merge_reports c6Fs ["b.xml", "a.xml"]).total_tests ∧
    (merge_reports c6Fs ["a.xml", "b.xml"]).passed_tests
        = (merge_reports c6Fs ["b.xml", "a.xml"]).passed_tests ∧
    (merge_reports c6Fs ["a.xml", "b.xml"]).failed_tests
        = (merge_reports c6Fs ["b.xml", "a.xml"]).failed_tests ∧
    (merge_reports c6Fs ["a.xml", "b.xml"]).error_tests
        = (merge_reports c6Fs ["b.xml", "a.xml"]).error_tests ∧
    (merge_reports c6Fs ["a.xml", "b.xml"]).skipped_tests
        = (merge_reports c6Fs ["b.xml", "a.xml"]).skipped_tests ∧
    (merge_reports c6Fs ["a.xml", "b.xml"]).test_failures
        = ["a.xml", "b.xml"].flatMap (fileFailuresOf c6Fs) :=
  c6_merge_perm_invariant c6Fs ["a.xml", "b.xml"] ["b.xml", "a.xml"]
    (List.Perm.swap "b.xml" "a.xml" [])

/-! ### JUnit summary invariant -/

instance {ε α : Type} [DecidableEq ε] [DecidableEq α] : DecidableEq (Except ε α) :=
  fun x y =>
    match x, y with
    | .error a, .error b =>
      if h : a = b then .isTrue (by rw [h]) else .isFalse (by simp [h])
    | .ok a, .ok b =>
      if h : a = b then .isTrue (by rw [h]) else .isFalse (by simp [h])
    | .error _, .ok _ => .isFalse (by simp)
    | .ok _, .error _ => .isFalse (by simp)

theorem junitSuiteStep_inv (acc acc2 : Int × Int × Int × Int × Int × ℚ)
    (suite : Xml) (h : junitSuiteStep acc suite = .ok acc2)
    (hinv : acc.2.1 + acc.2.2.1 + acc.2.2.2.1 + acc.2.2.2.2.1 = acc.1) :
    acc2.2.1 + acc2.2.2.1 + acc2.2.2.2.1 + acc2.2.2.2.2.1 = acc2.1 := by
  obtain ⟨t, p, f, e, k, d⟩ := acc
  obtain ⟨t2, p2, f2, e2, k2, d2⟩ := acc2
  unfold junitSuiteStep at h
  cases h1 : attrInt suite "tests" with
  | error er => rw [h1] at h; simp at h
  | ok tests =>
  rw [h1] at h
  cases h2 : attrInt suite "failures" with
  | error er => rw [h2] at h; simp at h
  | ok failures =>
  rw [h2] at h
  cases h3 : attrInt suite "errors" with
  | error er => rw [h3] at h; simp at h
  | ok errors =>
  rw [h3] at h
  cases h4 : attrInt suite "skipped" with
  | error er => rw [h4] at h; simp at h
  | ok skipped =>
  rw [h4] at h
  cases h5 : attrFloat suite "time" with
  | error er => rw [h5] at h; simp at h
  | ok time =>
  rw [h5] at h
  simp only [Except.ok.injEq, Prod.mk.injEq] at h
  obtain ⟨ht, hp, hf, he, hk, -⟩ := h
  simp only at hinv ⊢
  omega

theorem junitSuitesFold_inv (suites : List Xml)
    (acc r : Int × Int × Int × Int × Int × ℚ)
    (h : junitSuitesFold acc suites = .ok r)
    (hinv : acc.2.1 + acc.2.2.1 + acc.2.2.2.1 + acc.2.2.2.2.1 = acc.1) :
    r.2.1 + r.2.2.1 + r.2.2.2.1 + r.2.2.2.2.1 = r.1 := by
  induction suites generalizing acc with
  | nil =>
    unfold junitSuitesFold at h
    cases h
    exact hinv
  | cons suite rest ih =>
    unfold junitSuitesFold at h
    cases hs : junitSuiteStep acc suite with
    | error er => rw [hs] at h; simp at h
    | ok acc2 =>
      rw [hs] at h
      exact ih _ h (junitSuiteStep_inv _ _ _ hs hinv)

/-- C4 holds unconditionally for JUnit parses. -/
theorem parse_junit_sum (x : Xml) (s : Summary) (h : parse_junit x = .ok s) :
    s.passed_tests + s.failed_tests + s.error_tests + s.skipped_tests
      = s.total_tests := by
  unfold parse_junit at h
  cases hf : junitSuitesFold (0, 0, 0, 0, 0, 0) (junitSuites x) with
  | error er => rw [hf] at h; simp at h
  | ok r =>
    rw [hf] at h
    obtain ⟨t, p, f, e, k, d⟩ := r
    simp only [Except.ok.injEq] at h
    have hs := junitSuitesFold_inv _ _ _ hf (by simp)
    subst h
    simp only at hs ⊢
    omega

/-- The `fmt` a JUnit parse records. -/
theorem parse_junit_fmt (x : Xml) (s : Summary) (h : parse_junit x = .ok s) :
    s.fmt = some "junit" := by
  unfold parse_junit at h
  cases hf : junitSuitesFold (0, 0, 0, 0, 0, 0) (junitSuites x) with
  | error er => rw [hf] at h; simp at h
  | ok r =>
    rw [hf] at h
    obtain ⟨t, p, f, e, k, d⟩ := r
    simp only [Except.ok.injEq] at h
    subst h
    rfl

def c4TestngXml : Xml :=
  .elem "testng-results" [("total", "2"), ("failed", "1")] [] none

/-- C4 counterexample: a TestNG report the ingestor accepts whose parsed
summary violates `passed + failed + errored + skipped = total` (the counts
are read independently from the root attributes and never reconciled). -/
theorem c4_testng_sum_cex :
    detect_format c4TestngXml = .ok "testng" ∧
    parse_report c4TestngXml "testng"
      = .ok { total_tests := 2, passed_tests := 0, failed_tests := 1,
              error_tests := 0, skipped_tests := 0, duration_seconds := 0,
              fmt := some "testng" } ∧
    (0 : Int) + 1 + 0 + 0 ≠ 2 := by
  refine ⟨rfl, rfl, by decide⟩

/-- C4 as amended: `passed+failed+errored+skipped = total` holds
unconditionally for every accepted JUnit report (passed is computed as the
per-suite difference); for TestNG, `errored` is fixed to 0 and the invariant
holds whenever the root attributes themselves balance
(`total = passed + failed + skipped + ignored`). -/
theorem c4_sum_invariant (x : Xml) (fmt : String) (s : Summary)
    (_hdet : detect_format x = .ok fmt) (h : parse_report x fmt = .ok s) :
    (s.fmt = some "junit" →
      s.passed_tests + s.failed_tests + s.error_tests + s.skipped_tests
        = s.total_tests) ∧
    (s.fmt = some "testng" →
      s.error_tests = 0 ∧
      ∀ t p f k g : Int, attrInt x "total" = .ok t → attrInt x "passed" = .ok p →
        attrInt x "failed" = .ok f → attrInt x "skipped" = .ok k →
        attrInt x "ignored" = .ok g → t = p + f + k + g →
        s.passed_tests + s.failed_tests + s.error_tests + s.skipped_tests
          = s.total_tests) := by
  unfold parse_report at h
  by_cases hfmt : fmt = "testng"
  · rw [if_pos hfmt] at h
    unfold parse_testng at h
    cases h1 : attrInt x "total" with
    | error er => rw [h1] at h; simp at h
    | ok total =>
    rw [h1] at h
    cases h2 : attrInt x "passed" with
    | error er => rw [h2] at h; simp at h
    | ok passed =>
    rw [h2] at h
    cases h3 : attrInt x "failed" with
    | error er => rw [h3] at h; simp at h
    | ok failed =>
    rw [h3] at h
    cases h4 : attrInt x "skipped" with
    | error er => rw [h4] at h; simp at h
    | ok skipped =>
    rw [h4] at h
    cases h5 : attrInt x "ignored" with
    | error er => rw [h5] at h; simp at h
    | ok ignored =>
    rw [h5] at h
    simp only [Except.ok.injEq] at h
    subst h
    refine ⟨by simp, fun _ => ⟨rfl, ?_⟩⟩
    intro t p f k g ht hp hf hk hg hbal
    cases ht; cases hp; cases hf; cases hk; cases hg
    simp only
    omega
  · rw [if_neg hfmt] at h
    refine ⟨fun _ => parse_junit_sum x s h, fun hng => ?_⟩
    rw [parse_junit_fmt x s h] at hng
    exact absurd hng (by simp)

def c4JunitXml : Xml :=
  .elem "testsuite"
    [("tests", "5"), ("failures", "2"), ("errors", "1")] [] none

/-- C4 witness: the JUnit half of the invariant at a concrete report with
5 tests, 2 failures and 1 error. -/
theorem c4_sum_invariant_witness :
    (Summary.mk 5 2 2 1 0 0 (some "junit")).passed_tests
      + (Summary.mk 5 2 2 1 0 0 (some "junit")).failed_tests
      + (Summary.mk 5 2 2 1 0 0 (some "junit")).error_tests
      + (Summary.mk 5 2 2 1 0 0 (some "junit")).skipped_tests
      = (Summary.mk 5 2 2 1 0 0 (some "junit")).total_tests :=
  (c4_sum_invariant c4JunitXml "junit" (Summary.mk 5 2 2 1 0 0 (some "junit"))
    (by decide) (by decide)).1 rfl

/-! ### Locator lemmas -/

theorem findSigInDirs_fail_info (fs : RepoFs) (full method cn : String)
    (rel : List String) (fail : FailureInfo) (dirs : List (List String))
    (ti : TestInfo) (h : findSigInDirs fs full method cn rel fail dirs = some ti) :
    ti.failure_info = fail := by
  induction dirs with
  | nil => simp [findSigInDirs] at h
  | cons d rest ih =>
    unfold findSigInDirs at h
    by_cases hx : fs.fileExists (d ++ rel) = true
    · rw [if_pos hx] at h
      cases h
      rfl
    · rw [if_neg hx] at h
      cases hg : fs.rglob d (cn ++ ".java") with
      | nil => rw [hg] at h; exact ih h
      | cons f fsx =>
        rw [hg] at h
        cases h
        rfl

theorem find_test_by_signature_fail_info (fs : RepoFs) (signature : String)
    (dirs : Option (List String)) (fail : FailureInfo) (ti : TestInfo)
    (h : find_test_by_signature fs signature dirs fail = some ti) :
    ti.failure_info = fail := by
  unfold find_test_by_signature at h
  cases hp : parse_signature signature with
  | none => rw [hp] at h; simp at h
  | some v =>
    obtain ⟨full, method⟩ := v
    rw [hp] at h
    exact findSigInDirs_fail_info _ _ _ _ _ _ _ _ h

theorem findOneFailure_spec (fs : RepoFs) (dirs : Option (List String))
    (f : FailureInfo) (ti : TestInfo) (h : findOneFailure fs dirs f = some ti) :
    f.method_signature ≠ "" ∧ ti.failure_info = f := by
  unfold findOneFailure at h
  by_cases hs : f.method_signature = ""
  · simp [hs] at h
  · rw [if_pos (by simpa using hs)] at h
    refine ⟨hs, ?_⟩
    cases hf : find_test_by_signature fs f.method_signature dirs f with
    | some ti0 =>
      rw [hf] at h
      cases h
      exact find_test_by_signature_fail_info _ _ _ _ _ hf
    | none =>
      rw [hf] at h
      by_cases hcn : (f.class_name ≠ "" && f.test_name ≠ "") = true
      · rw [if_pos hcn] at h
        cases hsearch : search_by_class_name fs ((splitCharStr f.class_name '.').getLastD "") dirs with
        | nil => rw [hsearch] at h; simp at h
        | cons p ps =>
          rw [hsearch] at h
          cases h
          rfl
      · rw [if_neg hcn] at h
        simp at h

theorem find_tests_foldl_mem (fs : RepoFs) (dirs : Option (List String))
    (l : List FailureInfo) (acc : List TestInfo) (ti : TestInfo) :
    (ti ∈ l.foldl
        (fun acc failure =>
          match findOneFailure fs dirs failure with
          | some t => acc ++ [t]
          | none => acc)
        acc)
      ↔ ti ∈ acc ∨ ∃ f ∈ l, findOneFailure fs dirs f = some ti := by
  induction l generalizing acc with
  | nil => simp
  | cons f rest ih =>
    simp only [List.foldl_cons]
    cases hf : findOneFailure fs dirs f with
    | none =>
      rw [ih]
      constructor
      · rintro (h | h)
        · exact Or.inl h
        · exact Or.inr (by obtain ⟨g, hg, hgo⟩ := h; exact ⟨g, by simp [hg], hgo⟩)
      · rintro (h | ⟨g, hg, hgo⟩)
        · exact Or.inl h
        · rcases List.mem_cons.mp hg with rfl | hg2
          · rw [hf] at hgo; cases hgo
          · exact Or.inr ⟨g, hg2, hgo⟩
    | some t =>
      rw [ih]
      constructor
      · rintro (h | h)
        · rcases List.mem_append.mp h with h2 | h2
          · exact Or.inl h2
          · refine Or.inr ⟨f, by simp, ?_⟩
            rw [hf]
            simp at h2
            rw [h2]
        · exact Or.inr (by obtain ⟨g, hg, hgo⟩ := h; exact ⟨g, by simp [hg], hgo⟩)
      · rintro (h | ⟨g, hg, hgo⟩)
        · exact Or.inl (List.mem_append.mpr (Or.inl h))
        · rcases List.mem_cons.mp hg with rfl | hg2
          · rw [hf] at hgo
            cases hgo
            exact Or.inl (List.mem_append.mpr (Or.inr (by simp)))
          · exact Or.inr ⟨g, hg2, hgo⟩

theorem find_tests_mem (fs : RepoFs) (fd : FailureDetails)
    (dirs : Option (List String)) (ti : TestInfo) :
    ti ∈ find_tests_for_failures fs fd dirs
      ↔ ∃ f ∈ fd.test_failures, findOneFailure fs dirs f = some ti := by
  unfold find_tests_for_failures
  rw [find_tests_foldl_mem]
  simp

def c7NoSigFailure : FailureInfo :=
  { test_name := "bar", class_name := "com.acme.Foo", method_signature := "",
    error_type := "AssertionError", error_message := "boom", stack_trace := "",
    duration_ms := "0", params := [] }

def c7Details : FailureDetails :=
  { failure_count := 1, result := "FAILURE", test_failures := [c7NoSigFailure],
    error_lines := [], has_compilation_error := false, has_timeout := false,
    has_assertion_error := true, fmt := some "testng" }

def c7Repo : RepoFs := ⟨true, true, [["src", "t", "Foo.java"]]⟩

/-- C7 counterexample: a failure record with no method signature but with a
class name and test name is skipped outright — the recursive search by
simple class name never runs for it, even though `Foo.java` exists under
the search directory and the class-name search would find it. -/
theorem c7_no_signature_skipped_cex :
    find_tests_for_failures c7Repo c7Details (some ["src"]) = [] ∧
    search_by_class_name c7Repo "Foo" (some ["src"]) = ["src/t/Foo.java"] ∧
    c7NoSigFailure.method_signature = "" ∧
    c7NoSigFailure.class_name ≠ "" ∧ c7NoSigFailure.test_name ≠ "" := by
  refine ⟨by decide, by decide, rfl, by decide, by decide⟩

/-- C7 as amended: the fallback search by simple class name runs only for a
failure whose `method_signature` is nonempty but whose signature-based
lookup failed; every located test stems from a nonempty-signature record
(records with an empty signature are skipped), and when the signature
lookup fails while class name and test name are present and the class-name
search finds files, the first found file is located for that record. -/
theorem c7_fallback_requires_signature (fs : RepoFs) (fd : FailureDetails)
    (dirs : Option (List String)) :
    (∀ ti ∈ find_tests_for_failures fs fd dirs,
      ti.failure_info.method_signature ≠ "") ∧
    (∀ f ∈ fd.test_failures, f.method_signature ≠ "" →
      find_test_by_signature fs f.method_signature dirs f = none →
      f.class_name ≠ "" → f.test_name ≠ "" →
      ∀ p ps, search_by_class_name fs ((splitCharStr f.class_name '.').getLastD "") dirs
          = p :: ps →
        ∃ ti ∈ find_tests_for_failures fs fd dirs,
          ti.failure_info = f ∧ ti.file_path = p) := by
  constructor
  · intro ti hti
    obtain ⟨f, -, hfo⟩ := (find_tests_mem fs fd dirs ti).mp hti
    obtain ⟨hsig, hinfo⟩ := findOneFailure_spec fs dirs f ti hfo
    rw [hinfo]
    exact hsig
  · intro f hf hsig hnone hcls hname p ps hsearch
    refine ⟨{ file_path := p, class_name := (splitCharStr f.class_name '.').getLastD "",
              full_class_name := f.class_name, method_name := f.test_name,
              package := "", relative_path := "", failure_info := f },
            ?_, rfl, rfl⟩
    rw [find_tests_mem]
    refine ⟨f, hf, ?_⟩
    unfold findOneFailure
    rw [if_pos (by simpa using hsig), hnone, if_pos (by simp [hcls, hname]), hsearch]

def c7SigFailure : FailureInfo :=
  { test_name := "bar", class_name := "com.acme.Foo",
    method_signature := "bar(java.lang.String)[pri:0, instance:com.acme.Foo@1f2e]",
    error_type := "AssertionError", error_message := "boom", stack_trace := "",
    duration_ms := "3", params := [] }

def c7SigDetails : FailureDetails :=
  { failure_count := 1, result := "FAILURE", test_failures := [c7SigFailure],
    error_lines := [], has_compilation_error := false, has_timeout := false,
    has_assertion_error := true, fmt := some "testng" }

/-- C7 witness: a TestNG-style signature (which the signature regex rejects)
with class and test names present is located through the class-name search. -/
theorem c7_fallback_requires_signature_witness :
    ∃ ti ∈ find_tests_for_failures c7Repo c7SigDetails (some ["src"]),
      ti.failure_info = c7SigFailure ∧ ti.file_path = "src/t/Foo.java" :=
  (c7_fallback_requires_signature c7Repo c7SigDetails (some ["src"])).2
    c7SigFailure (by simp [c7SigDetails]) (by decide) (by decide) (by decide) (by decide)
    "src/t/Foo.java" [] (by decide)

/-- C10 as amended: with a repository path present and an ingested report
whose extracted failure count is 0, the executor takes the skip branch —
its result is the same for every file system and subprocess oracle (no
build-system detection, no subprocess) — recording success with exit code
0; the subsequent comparison yields `local_failed = false`, and
`consistent_failure` is true exactly when the merged `failed` and `errored`
counts are also 0. -/
theorem c10_skip_execution (rfs : RepoFs) (sub : SubOutcome) (s : PState)
    (tr : Summary) (fd : FailureDetails)
    (hrepo : s.repo_path ≠ "") (hfd : s.failure_details = some fd)
    (hcount : fd.failure_count = 0) (htr : s.test_results = some tr) :
    (local_executor rfs sub s).execution_success = some true ∧
    (local_executor rfs sub s).local_exit_code = some 0 ∧
    (local_executor rfs sub s).local_output = some "No failures to reproduce" ∧
    (∀ (rfs2 : RepoFs) (sub2 : SubOutcome),
      local_executor rfs2 sub2 s = local_executor rfs sub s) ∧
    ∃ cd, (results_collector (local_executor rfs sub s)).collected_data = some cd ∧
      cd.comparison.local_failed = false ∧
      cd.comparison.consistent_failure
        = !(tr.failed_tests > 0 || tr.error_tests > 0) := by
  have hexec : ∀ (rfs2 : RepoFs) (sub2 : SubOutcome),
      local_executor rfs2 sub2 s =
        { s with local_output := some "No failures to reproduce",
                 local_errors := some [], local_exit_code := some 0,
                 execution_success := some true,
                 workflow_status := "executed" } := by
    intro rfs2 sub2
    unfold local_executor
    rw [if_neg (by simpa using hrepo)]
    simp [hfd, hcount]
  refine ⟨by rw [hexec], by rw [hexec], by rw [hexec],
          fun rfs2 sub2 => by rw [hexec, hexec], ?_⟩
  rw [hexec]
  simp only [results_collector, htr, hfd]
  refine ⟨_, rfl, rfl, ?_⟩
  cases hxf : (tr.failed_tests > 0 || tr.error_tests > 0 : Bool) <;> simp [hxf]

def c10Xml : Xml :=
  .elem "testsuite" [("tests", "3"), ("failures", "2")]
    [.elem "testcase" [("name", "t1"), ("classname", "C")] [] none] none

def c10XmlFs : XmlFs := ⟨[("w.xml", .ok c10Xml)]⟩

def c10State : PState := xml_report_fetcher c10XmlFs (initState ["w.xml"] "repo" none)

/-- C10 counterexample: a report ingested with `failures="2"` in the suite
attributes but no failing testcase children has failure count 0, so the
executor skips and records success — but the comparison is then
inconsistent (`consistent_failure = false`), since the summed failed count
is 2, not 0 as the claim's `consistent = true` conclusion requires. -/
theorem c10_consistency_cex :
    ((c10State.failure_details.map (fun fd => fd.failure_count)) = some 0) ∧
    ((c10State.test_results.map (fun tr => tr.failed_tests)) = some 2) ∧
    ((results_collector
        (local_executor ⟨true, true, []⟩ SubOutcome.fileNotFound c10State)).collected_data.map
      (fun cd => (cd.comparison.local_failed, cd.comparison.consistent_failure)))
      = some (false, false) := by
  refine ⟨by decide, by decide, by decide⟩

/-- C10 witness: the amended statement applied to the concrete skip state. -/
theorem c10_skip_execution_witness :
    (local_executor ⟨true, true, []⟩ SubOutcome.fileNotFound c10State).execution_success
        = some true ∧
    (local_executor ⟨true, true, []⟩ SubOutcome.fileNotFound c10State).local_exit_code
        = some 0 ∧
    (local_executor ⟨true, true, []⟩ SubOutcome.fileNotFound c10State).local_output
        = some "No failures to reproduce" ∧
    (∀ (rfs2 : RepoFs) (sub2 : SubOutcome),
      local_executor rfs2 sub2 c10State
        = local_executor ⟨true, true, []⟩ SubOutcome.fileNotFound c10State) ∧
    ∃ cd, (results_collector
        (local_executor ⟨true, true, []⟩ SubOutcome.fileNotFound c10State)).collected_data
          = some cd ∧
      cd.comparison.local_failed = false ∧
      cd.comparison.consistent_failure = !((2 : Int) > 0 || (0 : Int) > 0) :=
  c10_skip_execution ⟨true, true, []⟩ SubOutcome.fileNotFound c10State
    ⟨3, 1, 2, 0, 0, 0, some "junit"⟩
    ⟨0, "SUCCESS", [], [], false, false, false, some "junit"⟩
    (by decide) (by decide) rfl (by decide)

/-! ### Pipeline-level lemmas -/

theorem results_collector_keeps_exec (s : PState) :
    (results_collector s).execution_success = s.execution_success := by
  unfold results_collector
  cases s.test_results <;> cases s.failure_details <;> rfl

theorem root_cause_analyzer_keeps_exec (llm : Except String String) (s : PState) :
    (root_cause_analyzer llm s).execution_success = s.execution_success := by
  unfold root_cause_analyzer
  cases llm <;> rfl

theorem local_executor_sets_exec (rfs : RepoFs) (sub : SubOutcome) (s : PState) :
    (local_executor rfs sub s).execution_success.isSome = true := by
  unfold local_executor
  dsimp only
  repeat' first | rfl | split

def c2BadXmlFs : XmlFs := ⟨[("bad.xml", .error "syntax error: line 1, column 0")]⟩

def c2Repo : RepoFs := ⟨true, true, []⟩

def c2Run : PState :=
  runPipeline c2BadXmlFs c2Repo [".py", ".js", ".sh", ".yaml"]
    SubOutcome.fileNotFound (.error "credentials not configured")
    "2026-01-01 00:00:00" (initState ["bad.xml"] "repo" none)

/-- C2 counterexample: with a malformed XML report the ingestion node does
record the error status, but the graph's unconditional edges run every
later stage anyway (the executor runs and records a result), and the report
generator overwrites the status, so the pipeline ends `completed`, not in
the error terminal state. -/
theorem c2_ingestion_failure_pipeline_continues_cex :
    (xml_report_fetcher c2BadXmlFs (initState ["bad.xml"] "repo" none)).workflow_status
        = "error" ∧
    c2Run.workflow_status = "completed" ∧
    c2Run.execution_success = some true ∧
    c2Run.final_report.isSome = true := by
  refine ⟨by decide, by decide, by decide, by decide⟩

/-- C2 as amended: even when ingestion fails, the pipeline does not
terminate — the local-executor stage still runs (it always records an
execution-success flag), and the final status is `completed` for every run,
because `report_generator` unconditionally overwrites the status. -/
theorem c2_pipeline_always_completes (xfs : XmlFs) (rfs : RepoFs)
    (extensions : List String) (sub : SubOutcome) (llm : Except String String)
    (ts : String) (s : PState)
    (_hfail : (xml_report_fetcher xfs s).workflow_status = "error") :
    (runPipeline xfs rfs extensions sub llm ts s).workflow_status = "completed" ∧
    (runPipeline xfs rfs extensions sub llm ts s).execution_success.isSome = true ∧
    (runPipeline xfs rfs extensions sub llm ts s).final_report.isSome = true := by
  refine ⟨rfl, ?_, rfl⟩
  show (root_cause_analyzer llm (results_collector (local_executor rfs sub
      (local_repo_access rfs extensions (xml_report_fetcher xfs s))))).execution_success.isSome
    = true
  rw [root_cause_analyzer_keeps_exec, results_collector_keeps_exec]
  exact local_executor_sets_exec _ _ _

/-- C2 witness: the amended statement at the malformed-XML run. -/
theorem c2_pipeline_always_completes_witness :
    c2Run.workflow_status = "completed" ∧
    c2Run.execution_success.isSome = true ∧
    c2Run.final_report.isSome = true :=
  c2_pipeline_always_completes c2BadXmlFs c2Repo [".py", ".js", ".sh", ".yaml"]
    SubOutcome.fileNotFound (.error "credentials not configured")
    "2026-01-01 00:00:00" (initState ["bad.xml"] "repo" none) (by decide)

/-! ### The end-to-end scenario of C3 -/

/-- One JUnit report: 3 tests, 1 failure (`AssertionError`,
"expected 5 got 3"). -/
def c3Xml : Xml :=
  .elem "testsuite"
    [("tests", "3"), ("failures", "1"), ("errors", "0"), ("skipped", "0"),
     ("time", "2.5")]
    [.elem "testcase" [("classname", "com.acme.CalcTest"), ("name", "testAdd")]
      [.elem "failure" [("message", "expected 5 got 3"), ("type", "AssertionError")]
        [] none] none,
     .elem "testcase" [("classname", "com.acme.CalcTest"), ("name", "t1")] [] none,
     .elem "testcase" [("classname", "com.acme.CalcTest"), ("name", "t2")] [] none]
    none

def c3XmlFs : XmlFs := ⟨[("report.xml", .ok c3Xml)]⟩

/-- A repository tree containing the matching class but no Maven/Gradle
marker file. -/
def c3Repo : RepoFs :=
  ⟨true, true, [["src", "main", "java", "com", "acme", "CalcTest.java"]]⟩

def c3Run : PState :=
  runPipeline c3XmlFs c3Repo [".py", ".js", ".sh", ".yaml"]
    SubOutcome.fileNotFound (.error "LLM unavailable") "2026-01-01 00:00:00"
    (initState ["report.xml"] "repo" none)

set_option maxRecDepth 100000

/-- C3 counterexample: in the scenario (one JUnit report with 3 tests and 1
failure, matching class present, build tool absent) the comparison records
`local_failed = true` and `consistent_failure = true` — not
`localFailed = false`, `consistent = false` as claimed — because the
executor records the missing build system as a failed execution. -/
theorem c3_scenario_local_failed_cex :
    (c3Run.collected_data.map (fun cd =>
      (cd.comparison.local_failed, cd.comparison.consistent_failure)))
      = some (true, true) := by
  decide

/-- C3 as amended: the pipeline reaches `completed`, the comparison is
`xml_failed = true, local_failed = true, consistent = true,
reproducible = true`, the state's `local_output` field records the
build-system notice verbatim — but the rendered report does not contain the
phrase "build system not detected" in either casing (the notice is rendered
only as an output-length count). -/
theorem c3_scenario_amended :
    c3Run.workflow_status = "completed" ∧
    (c3Run.collected_data.map (fun cd => cd.comparison))
      = some ⟨true, true, true, true⟩ ∧
    c3Run.local_output = some "Build system not detected (Maven/Gradle required)" ∧
    (c3Run.final_report.map (fun r => strIn r "build system not detected")) = some false ∧
    (c3Run.final_report.map (fun r => strIn r "Build system not detected")) = some false := by
  refine ⟨by decide, by decide, by decide, by decide, by decide⟩
